import Mathlib

/-!
# Function-call tracer (`tracer/tracer.go`)

A shallow embedding of `NewFunctionTracer` and of the two closures it returns.

Modelling decisions:

* The closures of the Go code share the captured variable `options`; here that
  variable is an explicit state of type `TracerConfiguration` which every call
  receives and hands back.
* A Go panic is a value of `Result`, and so is a fatal error of the runtime.
  A call yields an `Outcome`: the state it leaves behind together with what it
  returned, the panic it raised or the fatal error that ended the program.
  The deferred `incrementDepthCount` of `enterFunc` runs when the body returns
  and when it panics; after a fatal error no deferred call runs.
* The logger is the list of records handed to `Printf`, oldest first.
* Go `int` is modelled by `Int`.  The product of depth and spacing in
  `spaceOpt` wraps around at 64 bits (`wrapInt64`), as the multiplication of
  two Go `int` does; the depth counter itself would need `2^63` calls to wrap
  around and is not wrapped.
* `strings.Repeat` fails on a count it cannot allocate: beyond `maxAlloc`, the
  limit of the runtime for 48 address bits, it panics, and below that the
  program ends out of memory when the machine cannot provide the bytes.  What
  the machine can provide is the library parameter `allocLimit`, which is at
  least one page of 4096 bytes and at most `maxAlloc`: up to that many blanks
  a line is built, the texts `fmt` forms from the blanks included; with more
  the program ends at the first allocation of that size, the one of
  `strings.Repeat`.  Memory is not modelled otherwise.
* Go strings are modelled by Lean strings.
* `fmt.Sprintf` on a format with verbs or operands, and the Unicode tables for
  letters and digits outside ASCII, are library behaviours taken as parameters
  (`GoLib`).  The caller name reported by `runtime.Caller(1)` and
  `runtime.FuncForPC(pc).Name()` is an input of every `Enter` call (`none` when
  `runtime.Caller` reports failure).
-/

namespace Tracer

/-! ## Go values, results, library parameters -/

/-- What a Go call does: it returns a value, it panics with a message, or the
runtime ends the program with a fatal error, which runs no deferred call and
cannot be recovered. -/
inductive Result (α : Type) where
  | returned (val : α)
  | panicked (msg : String)
  | fatal (msg : String)
deriving DecidableEq, Repr

/-- Whether a call failed: it panicked or the program was ended. -/
def Result.failed {α : Type} : Result α → Bool
  | Result.returned _ => false
  | Result.panicked _ => true
  | Result.fatal _ => true

/-- A dynamically typed Go value (`interface{}`), as found in the variadic
argument list of `Enter`.  `other` stands for a value of any further type. -/
inductive GoValue where
  | str (s : String)
  | int (n : Int)
  | bool (b : Bool)
  | nil
  | other (typeName : String) (text : String)
deriving DecidableEq, Repr

/-- Library behaviours the tracer relies on and that are not part of the
repository. -/
structure GoLib where
  /-- Result of `fmt.Sprintf format operands` when the format holds a `%` or
  operands are present. -/
  formatOperands : String → List GoValue → String
  /-- Whether `unicode.IsLetter` or `unicode.IsDigit` holds of a character
  outside ASCII. -/
  letterOrDigit : Char → Bool
  /-- The largest number of blanks for which the machine the program runs on
  has the memory to build a line: the result of `strings.Repeat` and the texts
  `fmt` forms from it. -/
  allocLimit : Nat
  /-- A line with a page of 4096 blanks can be built. -/
  allocLimit_ge : 4096 ≤ allocLimit
  /-- Nothing beyond `maxAlloc` of package `runtime` (48 address bits on 64-bit
  platforms) can be allocated. -/
  allocLimit_le : allocLimit ≤ 281474976710656

/-- One instance of the library parameters, used to evaluate the model on
concrete inputs: the format is returned as it is, no character outside
ASCII counts as a letter or a digit, and 4 GiB can be allocated. -/
def GoLib.sample : GoLib where
  formatOperands := fun format _ => format
  letterOrDigit := fun _ => false
  allocLimit := 4294967296
  allocLimit_ge := by decide
  allocLimit_le := by decide

/-- Go `fmt.Sprintf`.  A format without `%` and without operands is copied
verbatim (`doPrintf` copies the text between verbs and reports surplus
operands); everything else is the library parameter. -/
def Sprintf (lib : GoLib) (format : String) (a : List GoValue) : String :=
  if format.data.contains '%' || !a.isEmpty then lib.formatOperands format a else format

/-- Go `strconv.Itoa` style decimal rendering of an `int`, as used by the `%d`
verb: a minus sign for negative numbers, then the decimal digits. -/
def fmtInteger (n : Int) : String :=
  if n < 0 then "-" ++ Nat.repr n.natAbs else Nat.repr n.natAbs

/-- Left padding with blanks up to a minimum width, as `fmt` does for a width
without the minus flag. -/
def padLeft (width : Nat) (s : String) : String :=
  String.mk (List.replicate (width - s.length) ' ') ++ s

/-- The call `fmt.Sprintf("[%2d]%s", depth, spaces)`. -/
def SprintfDepthSpaces (depth : Int) (spaces : String) : String :=
  "[" ++ padLeft 2 (fmtInteger depth) ++ "]" ++ spaces

/-- The value of a Go `int` expression on a 64-bit platform: the mathematical
result wrapped around into the range from `-2^63` to `2^63 - 1`. -/
def wrapInt64 (x : Int) : Int :=
  (x + 9223372036854775808) % 18446744073709551616 - 9223372036854775808

/-- Go `strings.Repeat`.  The counts 0 and 1 are answered without an
allocation; a negative count panics; a result longer than the largest `int`
panics; a result longer than the runtime can allocate panics in `makeslice`
when it is beyond `maxAlloc`, and otherwise ends the program with the fatal
error `out of memory`. -/
def Repeat (lib : GoLib) (s : String) (count : Int) : Result String :=
  if count = 0 then Result.returned ""
  else if count = 1 then Result.returned s
  else if count < 0 then Result.panicked "strings: negative Repeat count"
  else if 9223372036854775808 ≤ (s.utf8ByteSize : Int) * count then
    Result.panicked "strings: Repeat output length overflow"
  else if 281474976710656 < (s.utf8ByteSize : Int) * count then
    Result.panicked "runtime error: makeslice: len out of range"
  else if (lib.allocLimit : Int) < (s.utf8ByteSize : Int) * count then
    Result.fatal "runtime: out of memory"
  else Result.returned (String.join (List.replicate count.toNat s))

/-- Go `strconv.Atoi` with the error dropped (`n, _ = strconv.Atoi(s)`): the
value of an optionally signed decimal numeral, and 0 when the text is not
one. -/
def Atoi (s : String) : Int :=
  let digits : List Char → Option Nat := fun cs =>
    if cs.isEmpty then none
    else cs.foldl (fun acc c => acc.bind fun n =>
      if c.isDigit then some (n * 10 + (c.toNat - 48)) else none) (some 0)
  match s.data with
  | '-' :: cs => match digits cs with
    | some n => - (n : Int)
    | none => 0
  | '+' :: cs => ((digits cs).getD 0 : Nat)
  | cs => ((digits cs).getD 0 : Nat)

/-! ## The logger -/

/-- A `*log.Logger`, seen as the records it has been handed so far. -/
structure Logger where
  written : List String
deriving DecidableEq, Repr

/-- The logger `log.New(os.Stdout, "", 0)`. -/
def Logger.stdout : Logger := ⟨[]⟩

/-- The call `logger.Printf("%s%s%s\n", a, b, c)`: one record is handed to the
logger. -/
def Logger.Printf (l : Logger) (a b c : String) : Logger :=
  ⟨l.written ++ [a ++ b ++ c ++ "\n"]⟩

/-! ## Regular expressions -/

/-- Splits a text at the last occurrence of a character: the text before it
and the text after it. -/
def cutLast (c : Char) : List Char → Option (List Char × List Char)
  | [] => none
  | x :: xs =>
    match cutLast c xs with
    | some (before, after) => some (x :: before, after)
    | none => if x = c then some ([], xs) else none

/-- The match of `regexPredecessor`, written `^.*\.(.*)#` in the source, in a
text: the submatch of the group and the text that follows the match.  The
dot of the pattern does not match a line feed, so the match lies in the first
line; both stars are greedy, so the match ends at the last `#` of that line and
the group starts after the last `.` before that `#`. -/
def regexPredecessorFind (src : List Char) : Option (List Char × List Char) :=
  let line := src.takeWhile (fun c => c != '\n')
  let tail := src.dropWhile (fun c => c != '\n')
  match cutLast '#' line with
  | none => none
  | some (beforeHash, afterHash) =>
    match cutLast '.' beforeHash with
    | none => none
    | some (_, group) => some (group, afterHash ++ tail)

/-- The call `regexPredecessor.ReplaceAllString(src, "$1")`: the pattern is
anchored at the start of the text, so at most one match is replaced, by the
text of its group. -/
def regexPredecessorReplace (src : String) : String :=
  match regexPredecessorFind src.data with
  | none => src
  | some (group, after) => String.mk (group ++ after)

/-- Whether a character may be part of a name in a replacement template
(`unicode.IsLetter`, `unicode.IsDigit` or an underscore). -/
def isNameChar (lib : GoLib) (c : Char) : Bool :=
  c == '_' || (if c.toNat < 128 then c.isAlphanum else lib.letterOrDigit c)

/-- The number a template name denotes (`extract` of package `regexp`): the
value of a decimal numeral without a leading zero, `none` otherwise. -/
def templateNumber (name : List Char) : Option Nat :=
  let num := name.foldl (fun acc c => acc.bind fun n =>
    if c.isDigit && n < 100000000 then some (n * 10 + (c.toNat - 48)) else none) (some 0)
  match name with
  | '0' :: _ :: _ => none
  | _ => num

/-- Go `extract` of package `regexp`: the name at the start of a template (the
`$` already removed), written bare or in braces, the number it denotes and the
rest of the template. -/
def extract (lib : GoLib) (str : List Char) :
    Option (List Char × Option Nat × List Char) :=
  match str with
  | [] => none
  | '{' :: body =>
    let name := body.takeWhile (isNameChar lib)
    if name.isEmpty then none
    else match body.dropWhile (isNameChar lib) with
      | '}' :: rest => some (name, templateNumber name, rest)
      | _ => none
  | _ =>
    let name := str.takeWhile (isNameChar lib)
    if name.isEmpty then none
    else some (name, templateNumber name, str.dropWhile (isNameChar lib))

/-- Go `Regexp.expand` for a pattern without named groups: the replacement
template with `$$` turned into `$`, every `$number` replaced by the text of
that group (nothing when the group does not exist), every `$name` by nothing,
and a `$` that starts no name kept. -/
def expand (lib : GoLib) (groups : List (List Char)) :
    Nat → List Char → List Char
  | 0, template => template
  | fuel + 1, template =>
    if template.contains '$' then
      let before := template.takeWhile (fun c => c != '$')
      match (template.dropWhile (fun c => c != '$')).tail with
      | '$' :: rest => before ++ '$' :: expand lib groups fuel rest
      | after =>
        match extract lib after with
        | none => before ++ '$' :: expand lib groups fuel after
        | some (_, num, rest) =>
          let text := match num with
            | some n => groups.getD n []
            | none => []
          before ++ text ++ expand lib groups fuel rest
    else template

/-- The call `regexDetectFunc.ReplaceAllString(src, repl)` on the characters
of `src`, given the expansion of the template at a match: every occurrence of
the pattern, found from left to right, gives way to it. -/
def replaceAllFN (expansion : List Char) : List Char → List Char
  | '#' :: 'F' :: 'N' :: rest => expansion ++ replaceAllFN expansion rest
  | c :: rest => c :: replaceAllFN expansion rest
  | [] => []

/-- The call `regexDetectFunc.ReplaceAllString(src, repl)`, the pattern being
`\#FN`: it has no group but the whole match. -/
def regexDetectFuncReplace (lib : GoLib) (src repl : String) : String :=
  String.mk (replaceAllFN
    (expand lib ["#FN".data] (repl.length + 1) repl.data) src.data)

/-! ## The tracer -/

/-- The options record of the source, private depth counter included. -/
structure TracerConfiguration where
  DisableTracing : Bool
  CustomLogger : Option Logger
  DisableDepthValue : Bool
  DisableNesting : Bool
  SpacesPerIndent : Int
  EnterMessage : String
  ExitMessage : String
  currentDepth : Int
deriving DecidableEq, Repr

/-- The zero value of the record: what `var options TracerConfiguration`
declares, and what a composite literal leaves in the fields it does not
name. -/
def TracerConfiguration.zero : TracerConfiguration where
  DisableTracing := false
  CustomLogger := none
  DisableDepthValue := false
  DisableNesting := false
  SpacesPerIndent := 0
  EnterMessage := ""
  ExitMessage := ""
  currentDepth := 0

/-- The `default` struct tags of `TracerConfiguration`, by field name
(`field.Tag.Get("default")`); a field without the tag gives the empty
text. -/
def defaultTag (field : String) : String :=
  if field = "SpacesPerIndent" then "2"
  else if field = "EnterMessage" then "Entering Function: "
  else if field = "ExitMessage" then "Exiting Function:  "
  else ""

/-- The state a call leaves behind and what the call did. -/
structure Outcome (α : Type) where
  options : TracerConfiguration
  result : Result α
deriving DecidableEq, Repr

/-- The closure `spaceOpt`: the text that starts a line.  The count handed to
`strings.Repeat` is the product of two Go `int`, which wraps around. -/
def spaceOpt (lib : GoLib) (options : TracerConfiguration) : Result String :=
  match Repeat lib " " (wrapInt64 (options.currentDepth * options.SpacesPerIndent)) with
  | Result.panicked msg => Result.panicked msg
  | Result.fatal msg => Result.fatal msg
  | Result.returned spaces =>
    if !options.DisableDepthValue then
      Result.returned (SprintfDepthSpaces options.currentDepth spaces)
    else Result.returned spaces

/-- The closure `incrementDepthCount`. -/
def incrementDepthCount (options : TracerConfiguration) : TracerConfiguration :=
  { options with currentDepth := options.currentDepth + 1 }

/-- The closure `decrementCallDepth`: the counter is decremented first and the
check comes after. -/
def decrementCallDepth (options : TracerConfiguration) : Outcome Unit :=
  let options := { options with currentDepth := options.currentDepth - 1 }
  if options.currentDepth < 0 then
    ⟨options, Result.panicked "Depth is negative! This should never happen"⟩
  else ⟨options, Result.returned ()⟩

/-- The call `options.CustomLogger.Printf("%s%s%s\n", a, b, c)`; a nil logger
is a nil pointer dereference. -/
def logPrintf (options : TracerConfiguration) (a b c : String) : Outcome Unit :=
  match options.CustomLogger with
  | none =>
    ⟨options, Result.panicked "runtime error: invalid memory address or nil pointer dereference"⟩
  | some logger =>
    ⟨{ options with CustomLogger := some (logger.Printf a b c) }, Result.returned ()⟩

/-- The name `fnName` of `enterFunc`, from what the runtime reports about the
caller. -/
def resolveFnName (caller : Option String) : String :=
  match caller with
  | some name => regexPredecessorReplace name
  | none => "<unknown>"

/-- The message `traceMessage` of `enterFunc`: chosen from the arguments, then
with the marker replaced. -/
def traceMessage (lib : GoLib) (caller : Option String) (args : List GoValue) : String :=
  let fnName := resolveFnName caller
  let message :=
    match args with
    | GoValue.str fmtStr :: rest => Sprintf lib fmtStr rest
    | _ => fnName
  regexDetectFuncReplace lib message fnName

/-- The message `enterFunc` selects before the marker is replaced (lines 131
to 137 of the source): the leading string argument used as a format for the
arguments after it, else the resolved function name. -/
def selectMessage (lib : GoLib) (fnName : String) (args : List GoValue) : String :=
  match args with
  | GoValue.str fmtStr :: rest => Sprintf lib fmtStr rest
  | _ => fnName

/-- The closure `enterFunc`.  The deferred `incrementDepthCount` runs when the
body returns and when it panics, and not when the program is ended. -/
def enterFunc (lib : GoLib) (options : TracerConfiguration) (caller : Option String)
    (args : List GoValue) : Outcome String :=
  let message := traceMessage lib caller args
  match spaceOpt lib options with
  | Result.panicked msg => ⟨incrementDepthCount options, Result.panicked msg⟩
  | Result.fatal msg => ⟨options, Result.fatal msg⟩
  | Result.returned spacing =>
    match logPrintf options spacing options.EnterMessage message with
    | ⟨options, Result.panicked msg⟩ => ⟨incrementDepthCount options, Result.panicked msg⟩
    | ⟨options, Result.fatal msg⟩ => ⟨options, Result.fatal msg⟩
    | ⟨options, Result.returned _⟩ => ⟨incrementDepthCount options, Result.returned message⟩

/-- The closure `exitFunc`. -/
def exitFunc (lib : GoLib) (options : TracerConfiguration) (s : String) : Outcome Unit :=
  match decrementCallDepth options with
  | ⟨options, Result.panicked msg⟩ => ⟨options, Result.panicked msg⟩
  | ⟨options, Result.fatal msg⟩ => ⟨options, Result.fatal msg⟩
  | ⟨options, Result.returned _⟩ =>
    match spaceOpt lib options with
    | Result.panicked msg => ⟨options, Result.panicked msg⟩
    | Result.fatal msg => ⟨options, Result.fatal msg⟩
    | Result.returned spacing => logPrintf options spacing options.ExitMessage s

/-- What `NewFunctionTracer` returns: the two closures, here functions of the
captured variable `options`, and the value of that variable when the
constructor returns. -/
structure TracerPair where
  options : TracerConfiguration
  Exit : TracerConfiguration → String → Outcome Unit
  Enter : TracerConfiguration → Option String → List GoValue → Outcome String

/-- The copy `options` of the configuration handed to the constructor: the
zero value when the pointer is nil (`none`). -/
def optionsOf (opts : Option TracerConfiguration) : TracerConfiguration :=
  match opts with
  | some given => given
  | none => TracerConfiguration.zero

/-- The defaults `NewFunctionTracer` fills in when tracing is enabled, in the
order of the source: logger, enter message, exit message, spacing. -/
def applyDefaults (options : TracerConfiguration) : TracerConfiguration :=
  let options :=
    if options.CustomLogger = none then { options with CustomLogger := some Logger.stdout }
    else options
  let options :=
    if options.EnterMessage = "" then { options with EnterMessage := defaultTag "EnterMessage" }
    else options
  let options :=
    if options.ExitMessage = "" then { options with ExitMessage := defaultTag "ExitMessage" }
    else options
  if options.DisableNesting then { options with SpacesPerIndent := 0 }
  else if options.SpacesPerIndent = 0 then
    { options with SpacesPerIndent := Atoi (defaultTag "SpacesPerIndent") }
  else options

/-- The constructor `NewFunctionTracer`; `none` is the nil pointer. -/
def NewFunctionTracer (lib : GoLib) (opts : Option TracerConfiguration) : TracerPair :=
  let options := optionsOf opts
  if options.DisableTracing then
    { options := options
      Exit := fun options _ => ⟨options, Result.returned ()⟩
      Enter := fun options _ _ => ⟨options, Result.returned ""⟩ }
  else
    { options := applyDefaults options, Exit := exitFunc lib, Enter := enterFunc lib }

/-- A state of a tracer pair whose constructor fixed the configuration
`options`: that configuration with a given depth and with a logger that has
been handed the given records. -/
def TracerConfiguration.stateAt (options : TracerConfiguration) (depth : Int)
    (logger : Logger) : TracerConfiguration :=
  { options with currentDepth := depth, CustomLogger := some logger }

/-! ## Call sequences -/

/-- One call on a tracer pair: `Enter` with the caller the runtime reports and
the arguments, or `Exit` with a label. -/
inductive Call where
  | enter (caller : Option String) (args : List GoValue)
  | exit (label : String)
deriving DecidableEq, Repr

/-- Runs one call on the current state. -/
def TracerPair.call (p : TracerPair) (options : TracerConfiguration) : Call → Outcome Unit
  | Call.enter caller args =>
    match p.Enter options caller args with
    | ⟨options, Result.returned _⟩ => ⟨options, Result.returned ()⟩
    | ⟨options, Result.panicked msg⟩ => ⟨options, Result.panicked msg⟩
    | ⟨options, Result.fatal msg⟩ => ⟨options, Result.fatal msg⟩
  | Call.exit label => p.Exit options label

/-- Runs a sequence of calls from a state, each call made on its own (none
deferred by another); the first call that fails ends the run. -/
def TracerPair.run (p : TracerPair) (options : TracerConfiguration) :
    List Call → Outcome Unit
  | [] => ⟨options, Result.returned ()⟩
  | c :: rest =>
    match p.call options c with
    | ⟨options, Result.returned _⟩ => p.run options rest
    | ⟨options, Result.panicked msg⟩ => ⟨options, Result.panicked msg⟩
    | ⟨options, Result.fatal msg⟩ => ⟨options, Result.fatal msg⟩

/-- Runs a chain of nested traced functions from a state: each function
evaluates `defer Exit(Enter(args...))`, which calls `Enter` at once and defers
`Exit` with the label `Enter` gave, and then calls the next function of the
chain.  When `Enter` panics nothing has been deferred.  When the rest of the
chain panics, the deferred `Exit` still runs while the panic unwinds the
stack: if it returns the panic goes on, if it fails its failure takes over.
A fatal error ends the program at once. -/
def TracerPair.runNested (p : TracerPair) (options : TracerConfiguration) :
    List (Option String × List GoValue) → Outcome Unit
  | [] => ⟨options, Result.returned ()⟩
  | (caller, args) :: inner =>
    match p.Enter options caller args with
    | ⟨options, Result.panicked msg⟩ => ⟨options, Result.panicked msg⟩
    | ⟨options, Result.fatal msg⟩ => ⟨options, Result.fatal msg⟩
    | ⟨options, Result.returned label⟩ =>
      match p.runNested options inner with
      | ⟨options, Result.returned _⟩ => p.Exit options label
      | ⟨options, Result.fatal msg⟩ => ⟨options, Result.fatal msg⟩
      | ⟨options, Result.panicked msg⟩ =>
        match p.Exit options label with
        | ⟨options, Result.returned _⟩ => ⟨options, Result.panicked msg⟩
        | ⟨options, Result.panicked later⟩ => ⟨options, Result.panicked later⟩
        | ⟨options, Result.fatal later⟩ => ⟨options, Result.fatal later⟩

/-- Whether a sequence of calls is balanced when `pending` calls of `Enter`
are still unmatched: no `Exit` comes without an unmatched `Enter` before it,
and none is left unmatched at the end. -/
def balancedFrom (pending : Nat) : List Call → Bool
  | [] => pending == 0
  | Call.enter _ _ :: rest => balancedFrom (pending + 1) rest
  | Call.exit _ :: rest => pending != 0 && balancedFrom (pending - 1) rest

/-- The records a tracer pair has handed to its logger in a state. -/
def logOf (options : TracerConfiguration) : List String :=
  match options.CustomLogger with
  | some logger => logger.written
  | none => []

/-! ## Definitions in the words of the specification -/

/-- The line start the specification describes for a configuration at a depth:
the depth in brackets, right-aligned to width 2, unless the depth display is
disabled, then one blank per unit of depth times spacing. -/
def lineStart (options : TracerConfiguration) (depth : Int) : String :=
  if options.DisableDepthValue then
    String.mk (List.replicate (depth * options.SpacesPerIndent).toNat ' ')
  else
    "[" ++ padLeft 2 (fmtInteger depth) ++ "]" ++
      String.mk (List.replicate (depth * options.SpacesPerIndent).toNat ' ')

/-- The records a chain of nested traced functions is specified to produce
from a depth: the enter line of the outermost function, the records of the
functions it encloses one level deeper, and its exit line with the same line
start and the same message. -/
def nestedLines (lib : GoLib) (options : TracerConfiguration) :
    Int → List (Option String × List GoValue) → List String
  | _, [] => []
  | depth, (caller, args) :: inner =>
    (lineStart options depth ++ options.EnterMessage ++ traceMessage lib caller args ++ "\n") ::
      (nestedLines lib options (depth + 1) inner ++
        [lineStart options depth ++ options.ExitMessage ++ traceMessage lib caller args ++ "\n"])

/-- Number of `Enter` calls in a sequence. -/
def enters : List Call → Nat
  | [] => 0
  | Call.enter _ _ :: rest => enters rest + 1
  | Call.exit _ :: rest => enters rest

/-- Number of `Exit` calls in a sequence. -/
def exits : List Call → Nat
  | [] => 0
  | Call.enter _ _ :: rest => exits rest
  | Call.exit _ :: rest => exits rest + 1

/-- A balanced sequence of calls, in the words of the specification: every
initial part has at least as many `Enter` calls as `Exit` calls, and the whole
has as many of the one as of the other. -/
def Balanced (calls : List Call) : Prop :=
  (∀ k, exits (calls.take k) ≤ enters (calls.take k)) ∧ exits calls = enters calls

/-- The depths at which the lines of a sequence of calls are rendered, counted
from the depth the sequence starts at, when `pending` calls of `Enter` are
still unmatched: a call of `Enter` renders its line at the depth it finds, a
call of `Exit` one below it. -/
def lineDepths (pending : Nat) : List Call → List Nat
  | [] => []
  | Call.enter _ _ :: rest => pending :: lineDepths (pending + 1) rest
  | Call.exit _ :: rest => (pending - 1) :: lineDepths (pending - 1) rest

/-! ## Facts about the constructor -/

theorem applyDefaults_DisableTracing (o : TracerConfiguration) :
    (applyDefaults o).DisableTracing = o.DisableTracing := by
  unfold applyDefaults; simp only []; split_ifs <;> rfl

theorem applyDefaults_DisableDepthValue (o : TracerConfiguration) :
    (applyDefaults o).DisableDepthValue = o.DisableDepthValue := by
  unfold applyDefaults; simp only []; split_ifs <;> rfl

theorem applyDefaults_currentDepth (o : TracerConfiguration) :
    (applyDefaults o).currentDepth = o.currentDepth := by
  unfold applyDefaults; simp only []; split_ifs <;> rfl

theorem applyDefaults_CustomLogger (o : TracerConfiguration) :
    (applyDefaults o).CustomLogger =
      if o.CustomLogger = none then some Logger.stdout else o.CustomLogger := by
  unfold applyDefaults; simp only []; split_ifs <;> rfl

theorem applyDefaults_EnterMessage (o : TracerConfiguration) :
    (applyDefaults o).EnterMessage =
      if o.EnterMessage = "" then "Entering Function: " else o.EnterMessage := by
  unfold applyDefaults; simp only []; split_ifs <;> rfl

theorem applyDefaults_ExitMessage (o : TracerConfiguration) :
    (applyDefaults o).ExitMessage =
      if o.ExitMessage = "" then "Exiting Function:  " else o.ExitMessage := by
  unfold applyDefaults; simp only []; split_ifs <;> rfl

theorem applyDefaults_SpacesPerIndent (o : TracerConfiguration) :
    (applyDefaults o).SpacesPerIndent =
      if o.DisableNesting then 0
      else if o.SpacesPerIndent = 0 then 2 else o.SpacesPerIndent := by
  unfold applyDefaults; simp only []; split_ifs <;> rfl

/-- With tracing enabled the constructor returns the working closures and the
configuration with its defaults filled in. -/
theorem NewFunctionTracer_enabled (lib : GoLib) (opts : Option TracerConfiguration)
    (hen : (NewFunctionTracer lib opts).options.DisableTracing = false) :
    (NewFunctionTracer lib opts).Enter = enterFunc lib ∧
      (NewFunctionTracer lib opts).Exit = exitFunc lib ∧
      (NewFunctionTracer lib opts).options = applyDefaults (optionsOf opts) := by
  unfold NewFunctionTracer at hen ⊢
  by_cases h : (optionsOf opts).DisableTracing = true
  · simp [h] at hen
  · simp [h]

/-- The state the constructor returns is the state at the configured depth
with the logger it settled on. -/
theorem NewFunctionTracer_fresh (lib : GoLib) (opts : Option TracerConfiguration)
    (hen : (NewFunctionTracer lib opts).options.DisableTracing = false) :
    (NewFunctionTracer lib opts).options =
      (NewFunctionTracer lib opts).options.stateAt (optionsOf opts).currentDepth
        ⟨logOf (NewFunctionTracer lib opts).options⟩ := by
  obtain ⟨-, -, ho⟩ := NewFunctionTracer_enabled lib opts hen
  rw [ho]
  have hl := applyDefaults_CustomLogger (optionsOf opts)
  have hd := applyDefaults_currentDepth (optionsOf opts)
  have hl2 : ∃ l, (applyDefaults (optionsOf opts)).CustomLogger = some l := by
    rw [hl]
    cases hc : (optionsOf opts).CustomLogger with
    | none => exact ⟨_, rfl⟩
    | some l => exact ⟨l, by simp⟩
  obtain ⟨l, hl3⟩ := hl2
  generalize applyDefaults (optionsOf opts) = o at hl3 hd
  obtain ⟨dt, cl, dd, dn, sp, em, xm, cd⟩ := o
  simp only at hl3 hd
  subst hl3
  subst hd
  rfl

/-! ## Facts about the closures -/

/-- The blanks `strings.Repeat(" ", n)` yields. -/
theorem join_replicate_blank (n : Nat) :
    String.join (List.replicate n " ") = String.mk (List.replicate n ' ') := by
  induction n with
  | zero => rfl
  | succ k ih =>
    rw [List.replicate_succ, List.replicate_succ]
    show String.join (" " :: List.replicate k " ") = _
    have hj : ∀ (x : String) (xs : List String), String.join (x :: xs) = x ++ String.join xs := by
      intro x xs
      simp only [String.join, List.foldl_cons]
      have : ∀ (l : List String) (a b : String),
          List.foldl (fun r s => r ++ s) (a ++ b) l = a ++ List.foldl (fun r s => r ++ s) b l := by
        intro l
        induction l with
        | nil => intro a b; rfl
        | cons y ys ihy => intro a b; simp only [List.foldl_cons, String.append_assoc, ihy]
      have h0 : ("" : String) ++ x = x ++ "" := by simp
      rw [h0, this]
    rw [hj, ih]
    rfl

/-- A value inside the 64-bit range is not changed by the wrap-around. -/
theorem wrapInt64_eq (x : Int) (h0 : -9223372036854775808 ≤ x)
    (h1 : x < 9223372036854775808) : wrapInt64 x = x := by
  unfold wrapInt64
  omega

/-- Blanks are repeated when their count is not negative and can be
allocated. -/
theorem Repeat_blank_returned (lib : GoLib) (w : Int) (h0 : 0 ≤ w)
    (h1 : w ≤ lib.allocLimit) :
    Repeat lib " " w = Result.returned (String.mk (List.replicate w.toNat ' ')) := by
  have hle := lib.allocLimit_le
  have hb : ((" " : String).utf8ByteSize : Int) = 1 := by decide
  unfold Repeat
  rw [hb, one_mul]
  by_cases hz : w = 0
  · subst hz; rfl
  · rw [if_neg hz]
    by_cases h1w : w = 1
    · subst h1w; rfl
    · rw [if_neg h1w, if_neg (by omega), if_neg (by omega), if_neg (by omega),
        if_neg (by omega), join_replicate_blank]

/-- Repeating blanks panics when their count is negative or beyond what the
runtime can address. -/
theorem Repeat_blank_panicked (lib : GoLib) (w : Int)
    (h : w < 0 ∨ 281474976710656 < w) :
    ∃ msg, Repeat lib " " w = Result.panicked msg := by
  have hb : ((" " : String).utf8ByteSize : Int) = 1 := by decide
  unfold Repeat
  rw [hb, one_mul, if_neg (by omega), if_neg (by omega)]
  by_cases hneg : w < 0
  · rw [if_pos hneg]; exact ⟨_, rfl⟩
  · rw [if_neg hneg]
    have hlt : (281474976710656 : Int) < w := by omega
    split_ifs
    · exact ⟨_, rfl⟩
    · exact ⟨_, rfl⟩

/-- Repeating blanks ends the program when their count can be addressed and
the machine cannot provide that many bytes. -/
theorem Repeat_blank_fatal (lib : GoLib) (w : Int)
    (h0 : (lib.allocLimit : Int) < w) (h1 : w ≤ 281474976710656) :
    Repeat lib " " w = Result.fatal "runtime: out of memory" := by
  have hge := lib.allocLimit_ge
  have hb : ((" " : String).utf8ByteSize : Int) = 1 := by decide
  unfold Repeat
  rw [hb, one_mul, if_neg (by omega), if_neg (by omega), if_neg (by omega),
    if_neg (by omega), if_neg (by omega), if_pos h0]

/-- The line start is rendered when the wrapped product of depth and spacing
is not negative and can be allocated. -/
theorem spaceOpt_returned (lib : GoLib) (st : TracerConfiguration)
    (h0 : 0 ≤ wrapInt64 (st.currentDepth * st.SpacesPerIndent))
    (h1 : wrapInt64 (st.currentDepth * st.SpacesPerIndent) ≤ lib.allocLimit) :
    spaceOpt lib st = Result.returned
      (if st.DisableDepthValue then
        String.mk (List.replicate
          (wrapInt64 (st.currentDepth * st.SpacesPerIndent)).toNat ' ')
       else SprintfDepthSpaces st.currentDepth
        (String.mk (List.replicate
          (wrapInt64 (st.currentDepth * st.SpacesPerIndent)).toNat ' '))) := by
  unfold spaceOpt
  rw [Repeat_blank_returned lib _ h0 h1]
  cases st.DisableDepthValue <;> simp

/-- Rendering the line start panics when the wrapped product of depth and
spacing is negative or beyond what the runtime can address. -/
theorem spaceOpt_panicked (lib : GoLib) (st : TracerConfiguration)
    (h : wrapInt64 (st.currentDepth * st.SpacesPerIndent) < 0 ∨
      281474976710656 < wrapInt64 (st.currentDepth * st.SpacesPerIndent)) :
    ∃ msg, spaceOpt lib st = Result.panicked msg := by
  obtain ⟨msg, hm⟩ := Repeat_blank_panicked lib _ h
  exact ⟨msg, by unfold spaceOpt; rw [hm]⟩

/-- Rendering the line start ends the program when the wrapped product of
depth and spacing can be addressed and the machine cannot provide that many
bytes. -/
theorem spaceOpt_fatal (lib : GoLib) (st : TracerConfiguration)
    (h0 : (lib.allocLimit : Int) < wrapInt64 (st.currentDepth * st.SpacesPerIndent))
    (h1 : wrapInt64 (st.currentDepth * st.SpacesPerIndent) ≤ 281474976710656) :
    spaceOpt lib st = Result.fatal "runtime: out of memory" := by
  unfold spaceOpt
  rw [Repeat_blank_fatal lib _ h0 h1]

/-- Rendering the line start fails exactly when the wrapped product of depth
and spacing is negative or more than the machine can provide. -/
theorem spaceOpt_failed_iff (lib : GoLib) (st : TracerConfiguration) :
    (spaceOpt lib st).failed = true ↔
      (wrapInt64 (st.currentDepth * st.SpacesPerIndent) < 0 ∨
        (lib.allocLimit : Int) < wrapInt64 (st.currentDepth * st.SpacesPerIndent)) := by
  have hle := lib.allocLimit_le
  by_cases h0 : wrapInt64 (st.currentDepth * st.SpacesPerIndent) < 0
  · obtain ⟨msg, hm⟩ := spaceOpt_panicked lib st (Or.inl h0)
    rw [hm]
    exact ⟨fun _ => Or.inl h0, fun _ => rfl⟩
  · by_cases h1 : (lib.allocLimit : Int) < wrapInt64 (st.currentDepth * st.SpacesPerIndent)
    · by_cases h2 : wrapInt64 (st.currentDepth * st.SpacesPerIndent) ≤ 281474976710656
      · rw [spaceOpt_fatal lib st h1 h2]
        exact ⟨fun _ => Or.inr h1, fun _ => rfl⟩
      · obtain ⟨msg, hm⟩ := spaceOpt_panicked lib st (Or.inr (by omega))
        rw [hm]
        exact ⟨fun _ => Or.inr h1, fun _ => rfl⟩
    · rw [spaceOpt_returned lib st (by omega) (by omega)]
      constructor
      · intro h
        cases h
      · rintro (h | h)
        · exact absurd h h0
        · exact absurd h h1

/-- The start of a line does not depend on what the logger holds. -/
theorem spaceOpt_stateAt (lib : GoLib) (o : TracerConfiguration) (d : Int)
    (lg lg2 : Logger) :
    spaceOpt lib (o.stateAt d lg) = spaceOpt lib (o.stateAt d lg2) := rfl

theorem enterFunc_returned (lib : GoLib) (o : TracerConfiguration) (d : Int) (lg : Logger)
    (caller : Option String) (args : List GoValue) (pre : String)
    (hp : spaceOpt lib (o.stateAt d lg) = Result.returned pre) :
    enterFunc lib (o.stateAt d lg) caller args =
      ⟨o.stateAt (d + 1)
          ⟨lg.written ++ [pre ++ o.EnterMessage ++ traceMessage lib caller args ++ "\n"]⟩,
        Result.returned (traceMessage lib caller args)⟩ := by
  unfold enterFunc
  simp only [TracerConfiguration.stateAt] at hp ⊢
  simp only [hp, logPrintf, incrementDepthCount, Logger.Printf]

theorem enterFunc_panicked (lib : GoLib) (o : TracerConfiguration) (d : Int) (lg : Logger)
    (caller : Option String) (args : List GoValue) (msg : String)
    (hp : spaceOpt lib (o.stateAt d lg) = Result.panicked msg) :
    enterFunc lib (o.stateAt d lg) caller args =
      ⟨o.stateAt (d + 1) lg, Result.panicked msg⟩ := by
  unfold enterFunc
  simp only [TracerConfiguration.stateAt] at hp ⊢
  simp only [hp, incrementDepthCount]

theorem enterFunc_fatal (lib : GoLib) (o : TracerConfiguration) (d : Int) (lg : Logger)
    (caller : Option String) (args : List GoValue) (msg : String)
    (hp : spaceOpt lib (o.stateAt d lg) = Result.fatal msg) :
    enterFunc lib (o.stateAt d lg) caller args = ⟨o.stateAt d lg, Result.fatal msg⟩ := by
  unfold enterFunc
  simp only [TracerConfiguration.stateAt] at hp ⊢
  simp only [hp]

theorem exitFunc_returned (lib : GoLib) (o : TracerConfiguration) (d : Int) (lg : Logger)
    (label pre : String) (hd : 1 ≤ d)
    (hp : spaceOpt lib (o.stateAt (d - 1) lg) = Result.returned pre) :
    exitFunc lib (o.stateAt d lg) label =
      ⟨o.stateAt (d - 1) ⟨lg.written ++ [pre ++ o.ExitMessage ++ label ++ "\n"]⟩,
        Result.returned ()⟩ := by
  have hn : ¬ d - 1 < 0 := by omega
  unfold exitFunc decrementCallDepth
  simp only [TracerConfiguration.stateAt, hn, if_false] at hp ⊢
  simp only [hp, logPrintf, Logger.Printf]

theorem exitFunc_unbalanced (lib : GoLib) (o : TracerConfiguration) (d : Int) (lg : Logger)
    (label : String) (hd : d < 1) :
    exitFunc lib (o.stateAt d lg) label =
      ⟨o.stateAt (d - 1) lg,
        Result.panicked "Depth is negative! This should never happen"⟩ := by
  have hn : d - 1 < 0 := by omega
  unfold exitFunc decrementCallDepth
  simp only [TracerConfiguration.stateAt, hn, if_true]

theorem exitFunc_panicked (lib : GoLib) (o : TracerConfiguration) (d : Int) (lg : Logger)
    (label msg : String) (hd : 1 ≤ d)
    (hp : spaceOpt lib (o.stateAt (d - 1) lg) = Result.panicked msg) :
    exitFunc lib (o.stateAt d lg) label = ⟨o.stateAt (d - 1) lg, Result.panicked msg⟩ := by
  have hn : ¬ d - 1 < 0 := by omega
  unfold exitFunc decrementCallDepth
  simp only [TracerConfiguration.stateAt, hn, if_false] at hp ⊢
  simp only [hp]

theorem exitFunc_fatal (lib : GoLib) (o : TracerConfiguration) (d : Int) (lg : Logger)
    (label msg : String) (hd : 1 ≤ d)
    (hp : spaceOpt lib (o.stateAt (d - 1) lg) = Result.fatal msg) :
    exitFunc lib (o.stateAt d lg) label = ⟨o.stateAt (d - 1) lg, Result.fatal msg⟩ := by
  have hn : ¬ d - 1 < 0 := by omega
  unfold exitFunc decrementCallDepth
  simp only [TracerConfiguration.stateAt, hn, if_false] at hp ⊢
  simp only [hp]

/-! ## Facts about messages, runs and nested chains -/

theorem replaceAllFN_no_marker (e l : List Char) (h : ¬ ['#', 'F', 'N'] <:+: l) :
    replaceAllFN e l = l := by
  induction l using replaceAllFN.induct e with
  | case1 rest _ =>
    exact absurd ⟨[], rest, rfl⟩ h
  | case2 c rest hne ih =>
    rw [replaceAllFN]
    · rw [ih (fun hin => h (hin.trans (List.suffix_cons c rest).isInfix))]
    · intro rest2 hc hr
      exact hne rest2 hc hr
  | case3 => rfl

theorem Sprintf_plain (lib : GoLib) (t : String) (h : '%' ∉ t.data) :
    Sprintf lib t [] = t := by
  unfold Sprintf
  simp [h]

theorem traceMessage_plain (lib : GoLib) (caller : Option String) (t : String)
    (hv : '%' ∉ t.data) (hm : ¬ ['#', 'F', 'N'] <:+: t.data) :
    traceMessage lib caller [GoValue.str t] = t := by
  unfold traceMessage regexDetectFuncReplace
  simp only [Sprintf_plain lib t hv, replaceAllFN_no_marker _ _ hm]

theorem spaceOpt_lineStart (lib : GoLib) (o : TracerConfiguration) (d : Int) (lg : Logger)
    (h0 : 0 ≤ d * o.SpacesPerIndent) (h1 : d * o.SpacesPerIndent ≤ lib.allocLimit) :
    spaceOpt lib (o.stateAt d lg) = Result.returned (lineStart o d) := by
  have hle := lib.allocLimit_le
  have hw : wrapInt64 (d * o.SpacesPerIndent) = d * o.SpacesPerIndent :=
    wrapInt64_eq _ (by omega) (by omega)
  have hst : (o.stateAt d lg).currentDepth * (o.stateAt d lg).SpacesPerIndent =
      d * o.SpacesPerIndent := rfl
  rw [spaceOpt_returned lib _ (by rw [hst, hw]; exact h0) (by rw [hst, hw]; exact h1),
    hst, hw]
  rfl

theorem run_append (p : TracerPair) (st : TracerConfiguration) (a b : List Call) :
    p.run st (a ++ b) =
      match p.run st a with
      | ⟨st2, Result.returned _⟩ => p.run st2 b
      | ⟨st2, Result.panicked msg⟩ => ⟨st2, Result.panicked msg⟩
      | ⟨st2, Result.fatal msg⟩ => ⟨st2, Result.fatal msg⟩ := by
  induction a generalizing st with
  | nil => rfl
  | cons c rest ih =>
    simp only [List.cons_append, TracerPair.run]
    rcases hc : p.call st c with ⟨st1, r1⟩
    cases r1 with
    | returned v => exact ih st1
    | panicked msg => rfl
    | fatal msg => rfl

theorem call_enter_working (lib : GoLib) (p : TracerPair) (o : TracerConfiguration)
    (hE : p.Enter = enterFunc lib) (d : Int) (lg : Logger)
    (caller : Option String) (args : List GoValue) (h : 0 ≤ d * o.SpacesPerIndent)
    (h1 : d * o.SpacesPerIndent ≤ lib.allocLimit) :
    p.call (o.stateAt d lg) (Call.enter caller args) =
      ⟨o.stateAt (d + 1) ⟨lg.written ++
          [lineStart o d ++ o.EnterMessage ++ traceMessage lib caller args ++ "\n"]⟩,
        Result.returned ()⟩ := by
  simp only [TracerPair.call, hE,
    enterFunc_returned lib o d lg caller args _ (spaceOpt_lineStart lib o d lg h h1)]

theorem call_exit_working (lib : GoLib) (p : TracerPair) (o : TracerConfiguration)
    (hX : p.Exit = exitFunc lib) (d : Int) (lg : Logger) (label : String) (hd : 1 ≤ d)
    (h : 0 ≤ (d - 1) * o.SpacesPerIndent)
    (h1 : (d - 1) * o.SpacesPerIndent ≤ lib.allocLimit) :
    p.call (o.stateAt d lg) (Call.exit label) =
      ⟨o.stateAt (d - 1) ⟨lg.written ++ [lineStart o (d - 1) ++ o.ExitMessage ++ label ++ "\n"]⟩,
        Result.returned ()⟩ := by
  simp only [TracerPair.call, hX,
    exitFunc_returned lib o d lg label _ hd (spaceOpt_lineStart lib o (d - 1) lg h h1)]

/-- With a spacing that is not negative, a width within the limit at a depth
is within the limit at every smaller depth. -/
theorem width_le_of_le (lib : GoLib) (s e f : Int) (hs : 0 ≤ s) (hef : e ≤ f)
    (hf : f * s ≤ lib.allocLimit) : e * s ≤ lib.allocLimit :=
  le_trans (mul_le_mul_of_nonneg_right hef hs) hf

/-- A balanced sequence of calls on a working tracer whose spacing is not
negative, and whose lines are all indented by no more than can be allocated,
runs to its end and gives back the depth it started from; the log only
grows. -/
theorem run_balanced (lib : GoLib) (p : TracerPair) (o : TracerConfiguration)
    (hE : p.Enter = enterFunc lib) (hX : p.Exit = exitFunc lib)
    (hs : 0 ≤ o.SpacesPerIndent) (calls : List Call) :
    ∀ (n : Nat) (d : Int) (lg : Logger), 0 ≤ d → balancedFrom n calls = true →
      (∀ e ∈ lineDepths n calls, (d + (e : Int)) * o.SpacesPerIndent ≤ lib.allocLimit) →
      ∃ middle, p.run (o.stateAt (d + n) lg) calls =
        ⟨o.stateAt d ⟨lg.written ++ middle⟩, Result.returned ()⟩ := by
  induction calls with
  | nil =>
    intro n d lg _ hb _
    have hn : n = 0 := by simpa [balancedFrom] using hb
    subst hn
    exact ⟨[], by simp [TracerPair.run]⟩
  | cons c rest ih =>
    intro n d lg hd hb hlim
    cases c with
    | enter caller args =>
      have hb2 : balancedFrom (n + 1) rest = true := by simpa [balancedFrom] using hb
      simp only [lineDepths, List.forall_mem_cons] at hlim
      obtain ⟨hw1, hrest⟩ := hlim
      obtain ⟨mid, hmid⟩ := ih (n + 1) d
        ⟨lg.written ++ [lineStart o (d + n) ++ o.EnterMessage ++
          traceMessage lib caller args ++ "\n"]⟩ hd hb2 hrest
      refine ⟨(lineStart o (d + n) ++ o.EnterMessage ++
          traceMessage lib caller args ++ "\n") :: mid, ?_⟩
      have hw : 0 ≤ (d + n) * o.SpacesPerIndent := mul_nonneg (by omega) hs
      rw [TracerPair.run, call_enter_working lib p o hE (d + n) lg caller args hw hw1]
      simp only
      have hcast : d + (n : Int) + 1 = d + ((n + 1 : Nat) : Int) := by push_cast; ring
      rw [hcast, hmid]
      simp
    | exit label =>
      simp only [balancedFrom, Bool.and_eq_true, bne_iff_ne, ne_eq] at hb
      obtain ⟨hn, hb2⟩ := hb
      obtain ⟨m, rfl⟩ : ∃ m, n = m + 1 := Nat.exists_eq_succ_of_ne_zero hn
      simp only [Nat.add_sub_cancel] at hb2
      simp only [lineDepths, Nat.add_sub_cancel, List.forall_mem_cons] at hlim
      obtain ⟨hw0, hrest⟩ := hlim
      obtain ⟨mid, hmid⟩ := ih m d
        ⟨lg.written ++ [lineStart o (d + m) ++ o.ExitMessage ++ label ++ "\n"]⟩ hd hb2 hrest
      refine ⟨(lineStart o (d + m) ++ o.ExitMessage ++ label ++ "\n") :: mid, ?_⟩
      have hcast : d + ((m + 1 : Nat) : Int) - 1 = d + (m : Int) := by push_cast; ring
      have hw : 0 ≤ (d + ((m + 1 : Nat) : Int) - 1) * o.SpacesPerIndent :=
        mul_nonneg (by omega) hs
      have hw1 : (d + ((m + 1 : Nat) : Int) - 1) * o.SpacesPerIndent ≤ lib.allocLimit := by
        rw [hcast]; exact hw0
      rw [TracerPair.run, call_exit_working lib p o hX _ lg label (by omega) hw hw1]
      simp only
      rw [hcast, hmid]
      simp

/-- A chain of nested traced functions on a working tracer whose spacing is
not negative, and whose deepest indentation can be allocated, runs to its end,
gives back the depth it started from and logs the specified records. -/
theorem runNested_working (lib : GoLib) (p : TracerPair) (o : TracerConfiguration)
    (hE : p.Enter = enterFunc lib) (hX : p.Exit = exitFunc lib)
    (hs : 0 ≤ o.SpacesPerIndent)
    (chain : List (Option String × List GoValue)) :
    ∀ (d : Int) (lg : Logger), 0 ≤ d →
      (d + chain.length - 1) * o.SpacesPerIndent ≤ lib.allocLimit →
      p.runNested (o.stateAt d lg) chain =
        ⟨o.stateAt d ⟨lg.written ++ nestedLines lib o d chain⟩, Result.returned ()⟩ := by
  induction chain with
  | nil =>
    intro d lg _ _
    simp [TracerPair.runNested, nestedLines]
  | cons x inner ih =>
    intro d lg hd hlim
    obtain ⟨caller, args⟩ := x
    simp only [List.length_cons, Nat.cast_add, Nat.cast_one] at hlim
    have hw : 0 ≤ d * o.SpacesPerIndent := mul_nonneg hd hs
    have hwl : d * o.SpacesPerIndent ≤ lib.allocLimit :=
      width_le_of_le lib _ _ _ hs (by omega) hlim
    have hw1 : 0 ≤ (d + 1 - 1) * o.SpacesPerIndent := mul_nonneg (by omega) hs
    have hw1l : (d + 1 - 1) * o.SpacesPerIndent ≤ lib.allocLimit :=
      width_le_of_le lib _ _ _ hs (by omega) hlim
    rw [TracerPair.runNested, hE,
      enterFunc_returned lib o d lg caller args _ (spaceOpt_lineStart lib o d lg hw hwl)]
    simp only
    rw [ih (d + 1) _ (by omega) (width_le_of_le lib _ _ _ hs (by omega) hlim)]
    simp only
    rw [hX, exitFunc_returned lib o (d + 1) _ _ _ (by omega)
      (spaceOpt_lineStart lib o _ _ hw1 hw1l)]
    simp [nestedLines]

theorem balancedFrom_iff (calls : List Call) :
    ∀ n, balancedFrom n calls = true ↔
      ((∀ k, exits (calls.take k) ≤ n + enters (calls.take k)) ∧
        exits calls = n + enters calls) := by
  induction calls with
  | nil =>
    intro n
    simp only [balancedFrom, List.take_nil, exits, enters, beq_iff_eq]
    constructor
    · intro h
      exact ⟨fun _ => by omega, by omega⟩
    · rintro ⟨-, h⟩
      omega
  | cons c rest ih =>
    intro n
    cases c with
    | enter caller args =>
      simp only [balancedFrom, ih (n + 1)]
      constructor
      · rintro ⟨h1, h2⟩
        refine ⟨fun k => ?_, by simp only [exits, enters]; omega⟩
        cases k with
        | zero => simp [exits, enters]
        | succ j =>
          have := h1 j
          simp only [List.take_succ_cons, exits, enters]
          omega
      · rintro ⟨h1, h2⟩
        refine ⟨fun k => ?_, by simp only [exits, enters] at h2; omega⟩
        have := h1 (k + 1)
        simp only [List.take_succ_cons, exits, enters] at this
        omega
    | exit label =>
      simp only [balancedFrom, Bool.and_eq_true, bne_iff_ne, ne_eq]
      constructor
      · rintro ⟨hn, hb⟩
        obtain ⟨h1, h2⟩ := (ih (n - 1)).mp hb
        refine ⟨fun k => ?_, by simp only [exits, enters]; omega⟩
        cases k with
        | zero => simp [exits, enters]
        | succ j =>
          have := h1 j
          simp only [List.take_succ_cons, exits, enters]
          omega
      · rintro ⟨h1, h2⟩
        have h0 := h1 1
        simp only [List.take_succ_cons, List.take_zero, exits, enters] at h0
        refine ⟨by omega, (ih (n - 1)).mpr ⟨fun k => ?_, by
          simp only [exits, enters] at h2; omega⟩⟩
        have := h1 (k + 1)
        simp only [List.take_succ_cons, exits, enters] at this
        omega

theorem balanced_iff (calls : List Call) : Balanced calls ↔ balancedFrom 0 calls = true := by
  rw [balancedFrom_iff]
  simp [Balanced]

theorem nestedLines_length (lib : GoLib) (o : TracerConfiguration)
    (chain : List (Option String × List GoValue)) :
    ∀ d, (nestedLines lib o d chain).length = 2 * chain.length := by
  induction chain with
  | nil => intro d; rfl
  | cons x inner ih =>
    intro d
    obtain ⟨c, a⟩ := x
    simp only [nestedLines, List.length_cons, List.length_append, ih, List.length_nil]
    omega

/-- In the records of a chain of nested calls, the record at position `k` is
the enter line of the function at position `k`, the record at position `k`
counted from the end is its exit line, and both start with the line start of
depth `d + k`. -/
theorem nestedLines_getElem (lib : GoLib) (o : TracerConfiguration)
    (chain : List (Option String × List GoValue)) :
    ∀ (d : Int) (k : Nat) (hk : k < chain.length),
      (nestedLines lib o d chain)[k]? =
          some (lineStart o (d + k) ++ o.EnterMessage ++
            traceMessage lib chain[k].1 chain[k].2 ++ "\n") ∧
        (nestedLines lib o d chain)[2 * chain.length - 1 - k]? =
          some (lineStart o (d + k) ++ o.ExitMessage ++
            traceMessage lib chain[k].1 chain[k].2 ++ "\n") := by
  induction chain with
  | nil => intro d k hk; simp at hk
  | cons x inner ih =>
    intro d k hk
    obtain ⟨c, a⟩ := x
    have hlen := nestedLines_length lib o inner (d + 1)
    cases k with
    | zero =>
      constructor
      · simp [nestedLines]
      · simp only [nestedLines, List.length_cons]
        have h2 : 2 * (inner.length + 1) - 1 - 0 = (2 * inner.length) + 1 := by omega
        rw [h2, List.getElem?_cons_succ, List.getElem?_append_right (by omega)]
        simp [hlen]
    | succ j =>
      have hj : j < inner.length := by simpa using hk
      obtain ⟨h1, h2⟩ := ih (d + 1) j hj
      have hd : d + 1 + (j : Int) = d + ((j + 1 : Nat) : Int) := by push_cast; ring
      rw [hd] at h1 h2
      constructor
      · simp only [nestedLines, List.getElem?_cons_succ, List.getElem_cons_succ]
        rw [List.getElem?_append_left (by omega)]
        exact h1
      · simp only [nestedLines, List.length_cons, List.getElem_cons_succ]
        have h3 : 2 * (inner.length + 1) - 1 - (j + 1) = (2 * inner.length - 1 - j) + 1 := by
          omega
        rw [h3, List.getElem?_cons_succ, List.getElem?_append_left (by omega)]
        exact h2

theorem NewFunctionTracer_DisableTracing (lib : GoLib) (opts : Option TracerConfiguration) :
    (NewFunctionTracer lib opts).options.DisableTracing = (optionsOf opts).DisableTracing := by
  unfold NewFunctionTracer
  by_cases h : (optionsOf opts).DisableTracing = true
  · simp [h]
  · simp [h, applyDefaults_DisableTracing]

/-- The FIRST/SECOND scenario on a fresh working tracer whose spacing is not
negative, for two templates without verb and without marker. -/
theorem nested_pair_lines (lib : GoLib) (opts : Option TracerConfiguration)
    (c1 c2 : Option String) (t1 t2 : String)
    (hen : (NewFunctionTracer lib opts).options.DisableTracing = false)
    (hfresh : (optionsOf opts).currentDepth = 0)
    (hs : 0 ≤ (NewFunctionTracer lib opts).options.SpacesPerIndent)
    (hl : (NewFunctionTracer lib opts).options.SpacesPerIndent ≤ lib.allocLimit)
    (h1v : '%' ∉ t1.data) (h1m : ¬ ['#', 'F', 'N'] <:+: t1.data)
    (h2v : '%' ∉ t2.data) (h2m : ¬ ['#', 'F', 'N'] <:+: t2.data) :
    (NewFunctionTracer lib opts).runNested (NewFunctionTracer lib opts).options
        [(c1, [GoValue.str t1]), (c2, [GoValue.str t2])] =
      ⟨(NewFunctionTracer lib opts).options.stateAt 0
          ⟨logOf (NewFunctionTracer lib opts).options ++
            [lineStart (NewFunctionTracer lib opts).options 0 ++
                (NewFunctionTracer lib opts).options.EnterMessage ++ t1 ++ "\n",
              lineStart (NewFunctionTracer lib opts).options 1 ++
                (NewFunctionTracer lib opts).options.EnterMessage ++ t2 ++ "\n",
              lineStart (NewFunctionTracer lib opts).options 1 ++
                (NewFunctionTracer lib opts).options.ExitMessage ++ t2 ++ "\n",
              lineStart (NewFunctionTracer lib opts).options 0 ++
                (NewFunctionTracer lib opts).options.ExitMessage ++ t1 ++ "\n"]⟩,
        Result.returned ()⟩ := by
  obtain ⟨hE, hX, -⟩ := NewFunctionTracer_enabled lib opts hen
  have hf := NewFunctionTracer_fresh lib opts hen
  rw [hfresh] at hf
  generalize (NewFunctionTracer lib opts) = p at *
  generalize logOf p.options = lg0 at *
  conv_lhs => rw [hf]
  rw [runNested_working lib p p.options hE hX hs _ 0 _ (le_refl 0)
    (by simpa using hl)]
  simp [nestedLines, traceMessage_plain, h1v, h1m, h2v, h2m]

theorem lineStart_congr (o o2 : TracerConfiguration) (d : Int)
    (hd : o.DisableDepthValue = o2.DisableDepthValue)
    (hs : o.SpacesPerIndent = o2.SpacesPerIndent) :
    lineStart o d = lineStart o2 d := by
  unfold lineStart
  rw [hd, hs]

/-- When a run completes, so does the run of each of its initial parts: no
call of the sequence panicked. -/
theorem run_take_returned (p : TracerPair) (st : TracerConfiguration) (calls : List Call)
    (h : (p.run st calls).result = Result.returned ()) (k : Nat) :
    (p.run st (calls.take k)).result = Result.returned () := by
  have hsplit := run_append p st (calls.take k) (calls.drop k)
  rw [List.take_append_drop] at hsplit
  rcases hr : p.run st (calls.take k) with ⟨st2, r⟩
  cases r with
  | returned v => rfl
  | panicked msg =>
    rw [hr] at hsplit
    rw [hsplit] at h
    cases h
  | fatal msg =>
    rw [hr] at hsplit
    rw [hsplit] at h
    cases h

/-- The line start at a depth and with a spacing that are not negative, letter
by letter. -/
theorem lineStart_chars (o : TracerConfiguration) (d s : Nat)
    (hs : o.SpacesPerIndent = s) :
    lineStart o d =
      String.mk ((if o.DisableDepthValue then []
          else '[' :: (List.replicate (2 - (Nat.repr d).length) ' ' ++ (Nat.repr d).data ++ [']'])) ++
        List.replicate (d * s) ' ') := by
  have hm : ((d : Int) * (s : Int)).toNat = d * s := by
    rw [← Nat.cast_mul]; exact Int.toNat_natCast _
  have hf : fmtInteger (d : Int) = Nat.repr d := by
    unfold fmtInteger
    rw [if_neg (by omega)]
    simp
  unfold lineStart
  rw [hs, hm, hf]
  cases o.DisableDepthValue
  · apply String.ext
    simp [padLeft, String.data_append]
  · simp

/-- The FIRST/SECOND scenario on a fresh working tracer, given the values the
constructor settles on. -/
theorem scenario_lines (lib : GoLib) (opts : Option TracerConfiguration)
    (c1 c2 : Option String) (t1 t2 : String) (b : Bool) (s : Nat) (em xm : String)
    (hen : (optionsOf opts).DisableTracing = false)
    (hfresh : (optionsOf opts).currentDepth = 0)
    (hb : (applyDefaults (optionsOf opts)).DisableDepthValue = b)
    (hs : (applyDefaults (optionsOf opts)).SpacesPerIndent = s) (hs4 : s ≤ 4096)
    (hem : (applyDefaults (optionsOf opts)).EnterMessage = em)
    (hxm : (applyDefaults (optionsOf opts)).ExitMessage = xm)
    (h1v : '%' ∉ t1.data) (h1m : ¬ ['#', 'F', 'N'] <:+: t1.data)
    (h2v : '%' ∉ t2.data) (h2m : ¬ ['#', 'F', 'N'] <:+: t2.data) :
    (NewFunctionTracer lib opts).runNested (NewFunctionTracer lib opts).options
        [(c1, [GoValue.str t1]), (c2, [GoValue.str t2])] =
      ⟨(NewFunctionTracer lib opts).options.stateAt 0
          ⟨logOf (NewFunctionTracer lib opts).options ++
            [lineStart { TracerConfiguration.zero with
                DisableDepthValue := b, SpacesPerIndent := s } 0 ++ em ++ t1 ++ "\n",
              lineStart { TracerConfiguration.zero with
                DisableDepthValue := b, SpacesPerIndent := s } 1 ++ em ++ t2 ++ "\n",
              lineStart { TracerConfiguration.zero with
                DisableDepthValue := b, SpacesPerIndent := s } 1 ++ xm ++ t2 ++ "\n",
              lineStart { TracerConfiguration.zero with
                DisableDepthValue := b, SpacesPerIndent := s } 0 ++ xm ++ t1 ++ "\n"]⟩,
        Result.returned ()⟩ := by
  have hen2 : (NewFunctionTracer lib opts).options.DisableTracing = false := by
    rw [NewFunctionTracer_DisableTracing]; exact hen
  obtain ⟨-, -, ho⟩ := NewFunctionTracer_enabled lib opts hen2
  have hl : ∀ e, lineStart (NewFunctionTracer lib opts).options e =
      lineStart { TracerConfiguration.zero with
        DisableDepthValue := b, SpacesPerIndent := s } e :=
    fun e => lineStart_congr _ _ e (by rw [ho, hb]) (by rw [ho, hs])
  have hlim : (s : Int) ≤ lib.allocLimit := by
    have hge := lib.allocLimit_ge
    omega
  rw [nested_pair_lines lib opts c1 c2 t1 t2 hen2 hfresh (by rw [ho, hs]; positivity)
    (by rw [ho, hs]; exact hlim) h1v h1m h2v h2m, hl 0, hl 1, ho, hem, hxm]

/-- The line start when the spacing is 0: the bracketed depth, or nothing. -/
theorem lineStart_no_spacing (o : TracerConfiguration) (d : Int)
    (hs : o.SpacesPerIndent = 0) :
    lineStart o d =
      if o.DisableDepthValue then "" else "[" ++ padLeft 2 (fmtInteger d) ++ "]" := by
  unfold lineStart
  rw [hs, mul_zero]
  cases o.DisableDepthValue
  · simp only [Bool.false_eq_true, if_false, Int.toNat_zero, List.replicate_zero]
    exact String.append_empty _
  · rfl

/-! ## Facts about the disabled tracer, names and failing calls -/

/-- With tracing disabled the constructor returns the two no-op closures and
leaves the configuration as it was handed over. -/
theorem NewFunctionTracer_disabled (lib : GoLib) (opts : Option TracerConfiguration)
    (hdis : (optionsOf opts).DisableTracing = true) :
    (NewFunctionTracer lib opts).Enter = (fun options _ _ => ⟨options, Result.returned ""⟩) ∧
      (NewFunctionTracer lib opts).Exit = (fun options _ => ⟨options, Result.returned ()⟩) ∧
      (NewFunctionTracer lib opts).options = optionsOf opts := by
  unfold NewFunctionTracer
  simp [hdis]

/-- A run on a pair of no-op closures returns and leaves the state alone. -/
theorem run_disabled (lib : GoLib) (opts : Option TracerConfiguration)
    (hdis : (optionsOf opts).DisableTracing = true) (calls : List Call) :
    ∀ st, (NewFunctionTracer lib opts).run st calls = ⟨st, Result.returned ()⟩ := by
  obtain ⟨hE, hX, -⟩ := NewFunctionTracer_disabled lib opts hdis
  induction calls with
  | nil => intro st; rfl
  | cons c rest ih =>
    intro st
    have hc : (NewFunctionTracer lib opts).call st c = ⟨st, Result.returned ()⟩ := by
      cases c with
      | enter caller args => simp only [TracerPair.call, hE]
      | exit label => simp only [TracerPair.call, hX]
    rw [TracerPair.run, hc]
    exact ih st

/-- `traceMessage` is the selected message with the marker replaced. -/
theorem traceMessage_eq_replace (lib : GoLib) (caller : Option String) (args : List GoValue) :
    traceMessage lib caller args =
      regexDetectFuncReplace lib (selectMessage lib (resolveFnName caller) args)
        (resolveFnName caller) := by
  unfold traceMessage selectMessage
  cases args with
  | nil => rfl
  | cons a rest => cases a <;> rfl

theorem selectMessage_not_string (lib : GoLib) (fnName : String) (args : List GoValue)
    (h : ∀ s, args.head? ≠ some (GoValue.str s)) :
    selectMessage lib fnName args = fnName := by
  unfold selectMessage
  cases args with
  | nil => rfl
  | cons a rest =>
    cases a with
    | str s => exact absurd rfl (h s)
    | int n => rfl
    | bool b => rfl
    | nil => rfl
    | other t x => rfl

/-- A template without `$` expands to itself. -/
theorem expand_no_dollar (lib : GoLib) (groups : List (List Char)) (fuel : Nat)
    (template : List Char) (h : '$' ∉ template) :
    expand lib groups fuel template = template := by
  cases fuel with
  | zero => rfl
  | succ n =>
    unfold expand
    rw [if_neg]
    simpa using h

/-- For a replacement without `$` the call of `ReplaceAllString` puts the
replacement, as it is, in the place of every occurrence of the marker. -/
theorem regexDetectFuncReplace_literal (lib : GoLib) (src repl : String)
    (h : '$' ∉ repl.data) :
    regexDetectFuncReplace lib src repl = String.mk (replaceAllFN repl.data src.data) := by
  unfold regexDetectFuncReplace
  rw [expand_no_dollar lib _ _ _ h]

theorem cutLast_none (c : Char) (l : List Char) (h : c ∉ l) : cutLast c l = none := by
  induction l with
  | nil => rfl
  | cons x xs ih =>
    have hx : x ≠ c := fun e => h (e ▸ List.mem_cons_self _ _)
    have hxs : c ∉ xs := fun m => h (List.mem_cons_of_mem _ m)
    simp only [cutLast, ih hxs, if_neg hx]

/-- Cutting at the last occurrence: the text after it holds no occurrence. -/
theorem cutLast_append (c : Char) (before after : List Char) (h : c ∉ after) :
    cutLast c (before ++ c :: after) = some (before, after) := by
  induction before with
  | nil => simp only [List.nil_append, cutLast, cutLast_none c after h, if_true]
  | cons x xs ih =>
    rw [List.cons_append]
    unfold cutLast
    rw [ih]

/-- A name without `#` has no match of `regexPredecessor`. -/
theorem regexPredecessorFind_no_hash (src : List Char) (h : '#' ∉ src) :
    regexPredecessorFind src = none := by
  unfold regexPredecessorFind
  have hl : '#' ∉ src.takeWhile (fun c => c != '\n') :=
    fun m => h ((List.takeWhile_sublist _).subset m)
  simp only [cutLast_none _ _ hl]

/-- The match of `regexPredecessor` in a name made of a path, a dot, a
segment, a hash and a rest. -/
theorem regexPredecessorFind_shape (P S I : List Char)
    (hP : '\n' ∉ P) (hSn : '\n' ∉ S) (hSd : '.' ∉ S) (hI : '#' ∉ I) :
    regexPredecessorFind (P ++ '.' :: (S ++ '#' :: I)) = some (S, I) := by
  have hpre : ∀ c ∈ P ++ '.' :: (S ++ ['#']), (fun c => c != '\n') c = true := by
    intro c hc
    simp only [List.mem_append, List.mem_cons, List.mem_singleton, List.not_mem_nil,
      or_false] at hc
    simp only [bne_iff_ne, ne_eq]
    rcases hc with hc | hc | hc | hc
    · exact fun e => hP (e ▸ hc)
    · rw [hc]; decide
    · exact fun e => hSn (e ▸ hc)
    · rw [hc]; decide
  have hsplit : P ++ '.' :: (S ++ '#' :: I) = (P ++ '.' :: (S ++ ['#'])) ++ I := by simp
  have htake : (P ++ '.' :: (S ++ '#' :: I)).takeWhile (fun c => c != '\n') =
      (P ++ '.' :: S) ++ '#' :: I.takeWhile (fun c => c != '\n') := by
    rw [hsplit, List.takeWhile_append_of_pos hpre]
    simp
  have hdrop : (P ++ '.' :: (S ++ '#' :: I)).dropWhile (fun c => c != '\n') =
      I.dropWhile (fun c => c != '\n') := by
    rw [hsplit, List.dropWhile_append_of_pos hpre]
  have hI2 : '#' ∉ I.takeWhile (fun c => c != '\n') :=
    fun m => hI ((List.takeWhile_sublist _).subset m)
  unfold regexPredecessorFind
  simp only [htake, hdrop, cutLast_append '#' _ _ hI2, cutLast_append '.' _ _ hSd,
    List.takeWhile_append_dropWhile]

/-- A name without `#` is resolved to itself. -/
theorem resolveFnName_no_hash (name : String) (h : '#' ∉ name.data) :
    resolveFnName (some name) = name := by
  unfold resolveFnName regexPredecessorReplace
  simp only [regexPredecessorFind_no_hash _ h]

/-- Called without arguments by a function whose name has no `#`, `Enter`
forms that name as its message. -/
theorem traceMessage_no_hash (lib : GoLib) (name : String) (h : '#' ∉ name.data) :
    traceMessage lib (some name) [] = name := by
  have hm : ¬ ['#', 'F', 'N'] <:+: name.data :=
    fun hin => h (hin.subset (List.mem_cons_self _ _))
  unfold traceMessage regexDetectFuncReplace
  simp only [resolveFnName_no_hash name h, replaceAllFN_no_marker _ _ hm]

/-- What a call of `Enter` does on a working tracer, whatever the spacing: it
returns or panics, and the depth has grown by one, or the program is ended. -/
theorem call_enter_cases (lib : GoLib) (p : TracerPair) (o : TracerConfiguration)
    (hE : p.Enter = enterFunc lib) (d : Int) (lg : Logger)
    (caller : Option String) (args : List GoValue) :
    (∃ lg2, p.call (o.stateAt d lg) (Call.enter caller args) =
        ⟨o.stateAt (d + 1) lg2, Result.returned ()⟩) ∨
    (∃ msg, p.call (o.stateAt d lg) (Call.enter caller args) =
        ⟨o.stateAt (d + 1) lg, Result.panicked msg⟩) ∨
    (∃ msg, p.call (o.stateAt d lg) (Call.enter caller args) =
        ⟨o.stateAt d lg, Result.fatal msg⟩) := by
  cases hp : spaceOpt lib (o.stateAt d lg) with
  | returned pre =>
    left
    refine ⟨⟨lg.written ++ [pre ++ o.EnterMessage ++ traceMessage lib caller args ++ "\n"]⟩, ?_⟩
    simp only [TracerPair.call, hE, enterFunc_returned lib o d lg caller args pre hp]
  | panicked msg =>
    right; left
    exact ⟨msg, by
      simp only [TracerPair.call, hE, enterFunc_panicked lib o d lg caller args msg hp]⟩
  | fatal msg =>
    right; right
    exact ⟨msg, by
      simp only [TracerPair.call, hE, enterFunc_fatal lib o d lg caller args msg hp]⟩

/-- What a call of `Exit` does on a working tracer, whatever the spacing: the
depth drops by one, and the call returns only if the depth was at least 1. -/
theorem call_exit_cases (lib : GoLib) (p : TracerPair) (o : TracerConfiguration)
    (hX : p.Exit = exitFunc lib) (d : Int) (lg : Logger) (label : String) :
    (1 ≤ d ∧ ∃ lg2, p.call (o.stateAt d lg) (Call.exit label) =
        ⟨o.stateAt (d - 1) lg2, Result.returned ()⟩) ∨
    (∃ r, r ≠ Result.returned () ∧ p.call (o.stateAt d lg) (Call.exit label) =
        ⟨o.stateAt (d - 1) lg, r⟩) := by
  by_cases hd : 1 ≤ d
  · cases hp : spaceOpt lib (o.stateAt (d - 1) lg) with
    | returned pre =>
      left
      refine ⟨hd, ⟨lg.written ++ [pre ++ o.ExitMessage ++ label ++ "\n"]⟩, ?_⟩
      simp only [TracerPair.call, hX, exitFunc_returned lib o d lg label pre hd hp]
    | panicked msg =>
      right
      exact ⟨Result.panicked msg, by simp, by
        simp only [TracerPair.call, hX, exitFunc_panicked lib o d lg label msg hd hp]⟩
    | fatal msg =>
      right
      exact ⟨Result.fatal msg, by simp, by
        simp only [TracerPair.call, hX, exitFunc_fatal lib o d lg label msg hd hp]⟩
  · right
    refine ⟨Result.panicked "Depth is negative! This should never happen", by simp, ?_⟩
    simp only [TracerPair.call, hX, exitFunc_unbalanced lib o d lg label (by omega)]

/-- The state a run on a working tracer ends in, whatever the spacing: when
the run completes, the depth is the initial depth plus the number of `Enter`
calls minus the number of `Exit` calls, and it is not negative; when a call
fails, the depth left behind is at least -1. -/
theorem run_state (lib : GoLib) (p : TracerPair) (o : TracerConfiguration)
    (hE : p.Enter = enterFunc lib) (hX : p.Exit = exitFunc lib) (calls : List Call) :
    ∀ (d : Int) (lg : Logger) (st : TracerConfiguration) (r : Result Unit), 0 ≤ d →
      p.run (o.stateAt d lg) calls = ⟨st, r⟩ →
      ∃ d2 lg2, st = o.stateAt d2 lg2 ∧ -1 ≤ d2 ∧
        (r = Result.returned () → d2 = d + enters calls - exits calls ∧ 0 ≤ d2) := by
  induction calls with
  | nil =>
    intro d lg st r hd hrun
    simp only [TracerPair.run, Outcome.mk.injEq] at hrun
    obtain ⟨rfl, rfl⟩ := hrun
    exact ⟨d, lg, rfl, by omega, fun _ => ⟨by simp [enters, exits], hd⟩⟩
  | cons c rest ih =>
    intro d lg st r hd hrun
    cases c with
    | enter caller args =>
      rcases call_enter_cases lib p o hE d lg caller args with ⟨lg2, hc⟩ | ⟨msg, hc⟩ | ⟨msg, hc⟩
      · rw [TracerPair.run, hc] at hrun
        obtain ⟨d2, lg3, hst, h1, h2⟩ := ih (d + 1) lg2 st r (by omega) hrun
        refine ⟨d2, lg3, hst, h1, fun hr => ?_⟩
        obtain ⟨h3, h4⟩ := h2 hr
        refine ⟨?_, h4⟩
        simp only [enters, exits, Nat.cast_add, Nat.cast_one]
        omega
      · rw [TracerPair.run, hc] at hrun
        simp only [Outcome.mk.injEq] at hrun
        obtain ⟨rfl, rfl⟩ := hrun
        exact ⟨d + 1, lg, rfl, by omega, fun hr => by cases hr⟩
      · rw [TracerPair.run, hc] at hrun
        simp only [Outcome.mk.injEq] at hrun
        obtain ⟨rfl, rfl⟩ := hrun
        exact ⟨d, lg, rfl, by omega, fun hr => by cases hr⟩
    | exit label =>
      rcases call_exit_cases lib p o hX d lg label with ⟨h1d, lg2, hc⟩ | ⟨r2, hr2, hc⟩
      · rw [TracerPair.run, hc] at hrun
        obtain ⟨d2, lg3, hst, h1, h2⟩ := ih (d - 1) lg2 st r (by omega) hrun
        refine ⟨d2, lg3, hst, h1, fun hr => ?_⟩
        obtain ⟨h3, h4⟩ := h2 hr
        refine ⟨?_, h4⟩
        simp only [enters, exits, Nat.cast_add, Nat.cast_one]
        omega
      · rw [TracerPair.run, hc] at hrun
        cases r2 with
        | returned v => exact absurd rfl hr2
        | panicked msg =>
          simp only [Outcome.mk.injEq] at hrun
          obtain ⟨rfl, rfl⟩ := hrun
          exact ⟨d - 1, lg, rfl, by omega, fun hr => by cases hr⟩
        | fatal msg =>
          simp only [Outcome.mk.injEq] at hrun
          obtain ⟨rfl, rfl⟩ := hrun
          exact ⟨d - 1, lg, rfl, by omega, fun hr => by cases hr⟩

/-- When the line start is rendered, the wrapped product of depth and spacing
is not negative and can be allocated. -/
theorem spaceOpt_returned_width (lib : GoLib) (st : TracerConfiguration) (pre : String)
    (hp : spaceOpt lib st = Result.returned pre) :
    0 ≤ wrapInt64 (st.currentDepth * st.SpacesPerIndent) ∧
      wrapInt64 (st.currentDepth * st.SpacesPerIndent) ≤ lib.allocLimit := by
  have h := spaceOpt_failed_iff lib st
  rw [hp] at h
  by_contra hc
  have hbad : wrapInt64 (st.currentDepth * st.SpacesPerIndent) < 0 ∨
      (lib.allocLimit : Int) < wrapInt64 (st.currentDepth * st.SpacesPerIndent) := by
    by_contra hn
    exact hc ⟨by omega, by omega⟩
  have := h.mpr hbad
  cases this

/-- In a state a working tracer reaches by calls that all complete, the line
start of every level below the depth has been rendered: the wrapped product of
that level and the spacing is not negative and can be allocated. -/
theorem run_levels (lib : GoLib) (p : TracerPair) (o : TracerConfiguration)
    (hE : p.Enter = enterFunc lib) (hX : p.Exit = exitFunc lib) (calls : List Call) :
    ∀ (d : Int) (lg : Logger) (st : TracerConfiguration), 0 ≤ d →
      (∀ e : Int, 0 ≤ e → e < d →
        0 ≤ wrapInt64 (e * o.SpacesPerIndent) ∧
          wrapInt64 (e * o.SpacesPerIndent) ≤ lib.allocLimit) →
      p.run (o.stateAt d lg) calls = ⟨st, Result.returned ()⟩ →
      ∃ d2 lg2, st = o.stateAt d2 lg2 ∧ 0 ≤ d2 ∧
        ∀ e : Int, 0 ≤ e → e < d2 →
          0 ≤ wrapInt64 (e * o.SpacesPerIndent) ∧
            wrapInt64 (e * o.SpacesPerIndent) ≤ lib.allocLimit := by
  induction calls with
  | nil =>
    intro d lg st hd hinv hrun
    simp only [TracerPair.run, Outcome.mk.injEq, and_true] at hrun
    exact ⟨d, lg, hrun.symm, hd, hinv⟩
  | cons c rest ih =>
    intro d lg st hd hinv hrun
    cases c with
    | enter caller args =>
      cases hp : spaceOpt lib (o.stateAt d lg) with
      | returned pre =>
        have hw := spaceOpt_returned_width lib _ pre hp
        rw [TracerPair.run] at hrun
        simp only [TracerPair.call, hE,
          enterFunc_returned lib o d lg caller args pre hp] at hrun
        refine ih (d + 1) _ st (by omega) (fun e he0 he1 => ?_) hrun
        rcases eq_or_lt_of_le (Int.lt_add_one_iff.mp he1) with heq | hlt
        · subst heq; exact hw
        · exact hinv e he0 hlt
      | panicked msg =>
        rw [TracerPair.run] at hrun
        simp only [TracerPair.call, hE,
          enterFunc_panicked lib o d lg caller args msg hp] at hrun
        simp at hrun
      | fatal msg =>
        rw [TracerPair.run] at hrun
        simp only [TracerPair.call, hE,
          enterFunc_fatal lib o d lg caller args msg hp] at hrun
        simp at hrun
    | exit label =>
      rcases call_exit_cases lib p o hX d lg label with ⟨h1d, lg2, hc⟩ | ⟨r2, hr2, hc⟩
      · rw [TracerPair.run, hc] at hrun
        exact ih (d - 1) lg2 st (by omega) (fun e he0 he1 => hinv e he0 (by omega)) hrun
      · rw [TracerPair.run, hc] at hrun
        cases r2 with
        | returned v => exact absurd rfl hr2
        | panicked msg => simp at hrun
        | fatal msg => simp at hrun

/-- A call of `Enter` on a working tracer fails exactly when the wrapped
product of depth and spacing is negative or more than the machine can
provide. -/
theorem enterFunc_failed_iff (lib : GoLib) (o : TracerConfiguration) (d : Int) (lg : Logger)
    (caller : Option String) (args : List GoValue) :
    (enterFunc lib (o.stateAt d lg) caller args).result.failed = true ↔
      (wrapInt64 (d * o.SpacesPerIndent) < 0 ∨
        (lib.allocLimit : Int) < wrapInt64 (d * o.SpacesPerIndent)) := by
  have h := spaceOpt_failed_iff lib (o.stateAt d lg)
  have hst : (o.stateAt d lg).currentDepth * (o.stateAt d lg).SpacesPerIndent =
      d * o.SpacesPerIndent := rfl
  rw [hst] at h
  rw [← h]
  cases hp : spaceOpt lib (o.stateAt d lg) with
  | returned pre => rw [enterFunc_returned lib o d lg caller args pre hp]; rfl
  | panicked msg => rw [enterFunc_panicked lib o d lg caller args msg hp]
  | fatal msg => rw [enterFunc_fatal lib o d lg caller args msg hp]

/-- A call of `Exit` on a working tracer fails exactly when the depth is less
than 1, or the wrapped product of the decremented depth and the spacing is
negative or more than the machine can provide. -/
theorem exitFunc_failed_iff (lib : GoLib) (o : TracerConfiguration) (d : Int) (lg : Logger)
    (label : String) :
    (exitFunc lib (o.stateAt d lg) label).result.failed = true ↔
      (d < 1 ∨ wrapInt64 ((d - 1) * o.SpacesPerIndent) < 0 ∨
        (lib.allocLimit : Int) < wrapInt64 ((d - 1) * o.SpacesPerIndent)) := by
  by_cases hd : 1 ≤ d
  · have h := spaceOpt_failed_iff lib (o.stateAt (d - 1) lg)
    have hst : (o.stateAt (d - 1) lg).currentDepth * (o.stateAt (d - 1) lg).SpacesPerIndent =
        (d - 1) * o.SpacesPerIndent := rfl
    rw [hst] at h
    have hnot : ¬ d < 1 := by omega
    rw [← h]
    cases hp : spaceOpt lib (o.stateAt (d - 1) lg) with
    | returned pre =>
      rw [exitFunc_returned lib o d lg label pre hd hp]
      simp [Result.failed, hnot]
    | panicked msg =>
      rw [exitFunc_panicked lib o d lg label msg hd hp]
      simp [Result.failed]
    | fatal msg =>
      rw [exitFunc_fatal lib o d lg label msg hd hp]
      simp [Result.failed]
  · rw [exitFunc_unbalanced lib o d lg label (by omega)]
    exact ⟨fun _ => Or.inl (by omega), fun _ => rfl⟩

/-- Whether `Enter` fails does not depend on the caller the runtime reports nor
on the arguments: it is decided by the line start and by the logger. -/
theorem enterFunc_failed_caller (lib : GoLib) (st : TracerConfiguration)
    (c1 c2 : Option String) (a1 a2 : List GoValue) :
    (enterFunc lib st c1 a1).result.failed = (enterFunc lib st c2 a2).result.failed := by
  unfold enterFunc
  cases spaceOpt lib st with
  | returned pre =>
    simp only [logPrintf]
    cases st.CustomLogger <;> rfl
  | panicked msg => rfl
  | fatal msg => rfl

/-! ## C1: what `Enter` does -/

/-- C1, as stated, fails: with `SpacesPerIndent = -1` the first `Enter` on a
fresh tracer returns and leaves depth 1, and the next `Enter`, at depth 1,
panics in `strings.Repeat`; it hands no record to the logger.  With
`SpacesPerIndent = 2^62` the `Enter` at depth 1 panics in `strings.Repeat`
too: the count is more than the runtime can address. -/
theorem enter_negative_spacing_panics :
    (NewFunctionTracer GoLib.sample
        (some { TracerConfiguration.zero with SpacesPerIndent := -1 })).options.DisableTracing
      = false ∧
    (NewFunctionTracer GoLib.sample
        (some { TracerConfiguration.zero with SpacesPerIndent := -1 })).Enter
      (NewFunctionTracer GoLib.sample
        (some { TracerConfiguration.zero with SpacesPerIndent := -1 })).options
      none [GoValue.str "A"] =
      ⟨(NewFunctionTracer GoLib.sample
          (some { TracerConfiguration.zero with SpacesPerIndent := -1 })).options.stateAt 1
          ⟨["[ 0]Entering Function: A\n"]⟩, Result.returned "A"⟩ ∧
    (NewFunctionTracer GoLib.sample
        (some { TracerConfiguration.zero with SpacesPerIndent := -1 })).Enter
      ((NewFunctionTracer GoLib.sample
          (some { TracerConfiguration.zero with SpacesPerIndent := -1 })).options.stateAt 1
          ⟨["[ 0]Entering Function: A\n"]⟩)
      none [GoValue.str "B"] =
      ⟨(NewFunctionTracer GoLib.sample
          (some { TracerConfiguration.zero with SpacesPerIndent := -1 })).options.stateAt 2
          ⟨["[ 0]Entering Function: A\n"]⟩,
        Result.panicked "strings: negative Repeat count"⟩ ∧
    (NewFunctionTracer GoLib.sample
        (some { TracerConfiguration.zero with SpacesPerIndent := 4611686018427387904 })).Enter
      ((NewFunctionTracer GoLib.sample
        (some { TracerConfiguration.zero with SpacesPerIndent := 4611686018427387904 })).options.stateAt 1
          ⟨["[ 0]Entering Function: A\n"]⟩)
      none [GoValue.str "B"] =
      ⟨(NewFunctionTracer GoLib.sample
        (some { TracerConfiguration.zero with SpacesPerIndent := 4611686018427387904 })).options.stateAt 2
          ⟨["[ 0]Entering Function: A\n"]⟩,
        Result.panicked "runtime error: makeslice: len out of range"⟩ := by
  decide

/-- C1, amended: on a working (tracing-enabled) tracer at a depth `d` whose
indentation width, the product of `d` and `SpacesPerIndent` as the 64-bit
multiplication of the code yields it, is not negative and is no more than the
runtime can allocate, `Enter` with any caller and any argument list hands
exactly one record to the logger, namely the line start rendered at depth `d`
(the depth before the call), then the enter message, then the trace message,
then a line feed; it leaves the depth at `d + 1` and returns that same trace
message. -/
theorem enter_appends_line_then_increments (lib : GoLib)
    (opts : Option TracerConfiguration) (d : Int) (lg : Logger)
    (caller : Option String) (args : List GoValue)
    (hen : (NewFunctionTracer lib opts).options.DisableTracing = false)
    (hw : 0 ≤ wrapInt64 (d * (NewFunctionTracer lib opts).options.SpacesPerIndent))
    (hl : wrapInt64 (d * (NewFunctionTracer lib opts).options.SpacesPerIndent) ≤
      lib.allocLimit) :
    ∃ pre,
      spaceOpt lib ((NewFunctionTracer lib opts).options.stateAt d lg) = Result.returned pre ∧
      (NewFunctionTracer lib opts).Enter
          ((NewFunctionTracer lib opts).options.stateAt d lg) caller args =
        ⟨(NewFunctionTracer lib opts).options.stateAt (d + 1)
            ⟨lg.written ++ [pre ++ (NewFunctionTracer lib opts).options.EnterMessage ++
              traceMessage lib caller args ++ "\n"]⟩,
          Result.returned (traceMessage lib caller args)⟩ := by
  obtain ⟨hE, -, -⟩ := NewFunctionTracer_enabled lib opts hen
  have hp := spaceOpt_returned lib ((NewFunctionTracer lib opts).options.stateAt d lg) hw hl
  exact ⟨_, hp, by rw [hE]; exact enterFunc_returned lib _ d lg caller args _ hp⟩

/-- C1 at a concrete input: the default tracer at depth 2, called from `main.foo`
with the template `#FN again`. -/
theorem enter_appends_line_then_increments_witness :
    (NewFunctionTracer GoLib.sample none).options.DisableTracing = false ∧
    0 ≤ wrapInt64 ((2 : Int) * (NewFunctionTracer GoLib.sample none).options.SpacesPerIndent) ∧
    wrapInt64 ((2 : Int) * (NewFunctionTracer GoLib.sample none).options.SpacesPerIndent) ≤
      GoLib.sample.allocLimit ∧
    ∃ pre,
      spaceOpt GoLib.sample ((NewFunctionTracer GoLib.sample none).options.stateAt 2 ⟨["\n"]⟩) =
        Result.returned pre ∧
      (NewFunctionTracer GoLib.sample none).Enter
          ((NewFunctionTracer GoLib.sample none).options.stateAt 2 ⟨["\n"]⟩)
          (some "main.foo") [GoValue.str "#FN again"] =
        ⟨(NewFunctionTracer GoLib.sample none).options.stateAt (2 + 1)
            ⟨["\n"] ++ [pre ++ (NewFunctionTracer GoLib.sample none).options.EnterMessage ++
              traceMessage GoLib.sample (some "main.foo") [GoValue.str "#FN again"] ++ "\n"]⟩,
          Result.returned
            (traceMessage GoLib.sample (some "main.foo") [GoValue.str "#FN again"])⟩ :=
  ⟨by decide, by decide, by decide,
    enter_appends_line_then_increments GoLib.sample none 2 ⟨["\n"]⟩ (some "main.foo")
      [GoValue.str "#FN again"] (by decide) (by decide) (by decide)⟩

/-! ## C2: what `Exit` does -/

/-- C2, as stated, fails: with `SpacesPerIndent = -1`, on a fresh working
tracer the first `Enter` returns and leaves depth 1, the second `Enter` panics
in `strings.Repeat` and its deferred increment leaves depth 2; `Exit("B")` in
that state, at depth 2, decrements the depth to 1 and then panics in
`strings.Repeat` as well, so it hands no record to the logger.  With
`SpacesPerIndent = 2^62` the `Exit` at depth 2 panics in `strings.Repeat`
too: the count at depth 1 is more than the runtime can address. -/
theorem exit_negative_spacing_panics :
    (NewFunctionTracer GoLib.sample
        (some { TracerConfiguration.zero with SpacesPerIndent := -1 })).options.DisableTracing
      = false ∧
    (NewFunctionTracer GoLib.sample
        (some { TracerConfiguration.zero with SpacesPerIndent := -1 })).run
      (NewFunctionTracer GoLib.sample
        (some { TracerConfiguration.zero with SpacesPerIndent := -1 })).options
      [Call.enter none [GoValue.str "A"], Call.enter none [GoValue.str "B"]] =
      ⟨(NewFunctionTracer GoLib.sample
          (some { TracerConfiguration.zero with SpacesPerIndent := -1 })).options.stateAt 2
          ⟨["[ 0]Entering Function: A\n"]⟩,
        Result.panicked "strings: negative Repeat count"⟩ ∧
    (NewFunctionTracer GoLib.sample
        (some { TracerConfiguration.zero with SpacesPerIndent := -1 })).Exit
      ((NewFunctionTracer GoLib.sample
          (some { TracerConfiguration.zero with SpacesPerIndent := -1 })).options.stateAt 2
          ⟨["[ 0]Entering Function: A\n"]⟩) "B" =
      ⟨(NewFunctionTracer GoLib.sample
          (some { TracerConfiguration.zero with SpacesPerIndent := -1 })).options.stateAt 1
          ⟨["[ 0]Entering Function: A\n"]⟩,
        Result.panicked "strings: negative Repeat count"⟩ ∧
    (NewFunctionTracer GoLib.sample
        (some { TracerConfiguration.zero with SpacesPerIndent := 4611686018427387904 })).Exit
      ((NewFunctionTracer GoLib.sample
        (some { TracerConfiguration.zero with SpacesPerIndent := 4611686018427387904 })).options.stateAt 2
          ⟨["[ 0]Entering Function: A\n"]⟩) "B" =
      ⟨(NewFunctionTracer GoLib.sample
        (some { TracerConfiguration.zero with SpacesPerIndent := 4611686018427387904 })).options.stateAt 1
          ⟨["[ 0]Entering Function: A\n"]⟩,
        Result.panicked "runtime error: makeslice: len out of range"⟩ := by
  decide

/-- C2, amended: on a working (tracing-enabled) tracer at depth `d ≥ 1` whose
indentation width at the decremented depth, the product of `d - 1` and
`SpacesPerIndent` as the 64-bit multiplication of the code yields it, is not
negative and is no more than the runtime can allocate, `Exit` with any label
sets the depth to `d - 1` and hands exactly one record to the logger, namely
the line start rendered at depth `d - 1` (the depth after the decrement), then
the exit message, then the label as it was given, then a line feed.  The
condition on the width holds in every state of depth at least 1 that a freshly
constructed tracer reaches by calls that all complete, so there `Exit` does
this for every label. -/
theorem exit_decrements_then_appends_line (lib : GoLib)
    (opts : Option TracerConfiguration) (label : String)
    (hen : (NewFunctionTracer lib opts).options.DisableTracing = false) :
    (∀ (d : Int) (lg : Logger), 1 ≤ d →
      0 ≤ wrapInt64 ((d - 1) * (NewFunctionTracer lib opts).options.SpacesPerIndent) →
      wrapInt64 ((d - 1) * (NewFunctionTracer lib opts).options.SpacesPerIndent) ≤
        lib.allocLimit →
      ∃ pre,
        spaceOpt lib ((NewFunctionTracer lib opts).options.stateAt (d - 1) lg) =
          Result.returned pre ∧
        (NewFunctionTracer lib opts).Exit
            ((NewFunctionTracer lib opts).options.stateAt d lg) label =
          ⟨(NewFunctionTracer lib opts).options.stateAt (d - 1)
              ⟨lg.written ++ [pre ++ (NewFunctionTracer lib opts).options.ExitMessage ++
                label ++ "\n"]⟩,
            Result.returned ()⟩) ∧
    (∀ (calls : List Call) (st : TracerConfiguration),
      (optionsOf opts).currentDepth = 0 →
      (NewFunctionTracer lib opts).run (NewFunctionTracer lib opts).options calls =
        ⟨st, Result.returned ()⟩ →
      1 ≤ st.currentDepth →
      ∃ pre,
        spaceOpt lib
            ((NewFunctionTracer lib opts).options.stateAt (st.currentDepth - 1) ⟨logOf st⟩) =
          Result.returned pre ∧
        (NewFunctionTracer lib opts).Exit st label =
          ⟨(NewFunctionTracer lib opts).options.stateAt (st.currentDepth - 1)
              ⟨logOf st ++ [pre ++ (NewFunctionTracer lib opts).options.ExitMessage ++
                label ++ "\n"]⟩,
            Result.returned ()⟩) := by
  obtain ⟨hE, hX, -⟩ := NewFunctionTracer_enabled lib opts hen
  have hstep : ∀ (d : Int) (lg : Logger), 1 ≤ d →
      0 ≤ wrapInt64 ((d - 1) * (NewFunctionTracer lib opts).options.SpacesPerIndent) →
      wrapInt64 ((d - 1) * (NewFunctionTracer lib opts).options.SpacesPerIndent) ≤
        lib.allocLimit →
      ∃ pre,
        spaceOpt lib ((NewFunctionTracer lib opts).options.stateAt (d - 1) lg) =
          Result.returned pre ∧
        (NewFunctionTracer lib opts).Exit
            ((NewFunctionTracer lib opts).options.stateAt d lg) label =
          ⟨(NewFunctionTracer lib opts).options.stateAt (d - 1)
              ⟨lg.written ++ [pre ++ (NewFunctionTracer lib opts).options.ExitMessage ++
                label ++ "\n"]⟩,
            Result.returned ()⟩ := by
    intro d lg hd hw hl
    have hp := spaceOpt_returned lib
      ((NewFunctionTracer lib opts).options.stateAt (d - 1) lg) hw hl
    exact ⟨_, hp, by rw [hX]; exact exitFunc_returned lib _ d lg label _ hd hp⟩
  refine ⟨hstep, ?_⟩
  intro calls st hfresh hrun hdepth
  have hf := NewFunctionTracer_fresh lib opts hen
  rw [hfresh] at hf
  rw [hf] at hrun
  obtain ⟨d2, lg2, hst, hd2, hlev⟩ := run_levels lib _ _ hE hX calls 0 _ st (le_refl 0)
    (fun e he0 he1 => absurd he1 (not_lt.mpr he0)) hrun
  subst hst
  have hd : (1 : Int) ≤ d2 := hdepth
  obtain ⟨hw, hl⟩ := hlev (d2 - 1) (by omega) (by omega)
  exact hstep d2 lg2 hd hw hl

/-- C2 at a concrete input: the default tracer at depth 3 and a label no
`Enter` returned. -/
theorem exit_decrements_then_appends_line_witness :
    (NewFunctionTracer GoLib.sample none).options.DisableTracing = false ∧
    (1 : Int) ≤ 3 ∧
    0 ≤ wrapInt64
      (((3 : Int) - 1) * (NewFunctionTracer GoLib.sample none).options.SpacesPerIndent) ∧
    wrapInt64
      (((3 : Int) - 1) * (NewFunctionTracer GoLib.sample none).options.SpacesPerIndent) ≤
        GoLib.sample.allocLimit ∧
    ∃ pre,
      spaceOpt GoLib.sample
          ((NewFunctionTracer GoLib.sample none).options.stateAt (3 - 1) ⟨["\n"]⟩) =
        Result.returned pre ∧
      (NewFunctionTracer GoLib.sample none).Exit
          ((NewFunctionTracer GoLib.sample none).options.stateAt 3 ⟨["\n"]⟩)
          "never returned by Enter" =
        ⟨(NewFunctionTracer GoLib.sample none).options.stateAt (3 - 1)
            ⟨["\n"] ++ [pre ++ (NewFunctionTracer GoLib.sample none).options.ExitMessage ++
              "never returned by Enter" ++ "\n"]⟩,
          Result.returned ()⟩ :=
  ⟨by decide, by decide, by decide, by decide,
    (exit_decrements_then_appends_line GoLib.sample none "never returned by Enter"
      (by decide)).1 3 ⟨["\n"]⟩ (by decide) (by decide) (by decide)⟩

/-! ## C3: the unbalanced `Exit` -/

/-- C3, as stated, fails: with `SpacesPerIndent = -2` and a logger of its own,
a working tracer reaches depth 2 by one `Enter` that returns and one that
panics (its deferred increment still runs); `Exit("")` at depth 2 then fails
although the depth is not 0: the depth drops to 1, the depth check passes, and
`strings.Repeat` panics on the count `-2`.  With `SpacesPerIndent = 2^62`,
`Exit("")` at depth 2 fails as well: the count at depth 1 is more than the
runtime can address. -/
theorem exit_fails_at_depth_two :
    (NewFunctionTracer GoLib.sample
        (some { TracerConfiguration.zero with
                  CustomLogger := some ⟨[]⟩, SpacesPerIndent := -2 })).options.DisableTracing
      = false ∧
    ((NewFunctionTracer GoLib.sample
        (some { TracerConfiguration.zero with
                  CustomLogger := some ⟨[]⟩, SpacesPerIndent := -2 })).run
      (NewFunctionTracer GoLib.sample
        (some { TracerConfiguration.zero with
                  CustomLogger := some ⟨[]⟩, SpacesPerIndent := -2 })).options
      [Call.enter none [], Call.enter none []]).options =
      (NewFunctionTracer GoLib.sample
          (some { TracerConfiguration.zero with
                    CustomLogger := some ⟨[]⟩, SpacesPerIndent := -2 })).options.stateAt 2
          ⟨["[ 0]Entering Function: <unknown>\n"]⟩ ∧
    ((NewFunctionTracer GoLib.sample
        (some { TracerConfiguration.zero with
                  CustomLogger := some ⟨[]⟩, SpacesPerIndent := -2 })).Exit
      ((NewFunctionTracer GoLib.sample
          (some { TracerConfiguration.zero with
                    CustomLogger := some ⟨[]⟩, SpacesPerIndent := -2 })).options.stateAt 2
          ⟨["[ 0]Entering Function: <unknown>\n"]⟩) "").result =
      Result.panicked "strings: negative Repeat count" ∧
    ((NewFunctionTracer GoLib.sample
        (some { TracerConfiguration.zero with SpacesPerIndent := 4611686018427387904 })).Exit
      ((NewFunctionTracer GoLib.sample
        (some { TracerConfiguration.zero with SpacesPerIndent := 4611686018427387904 })).options.stateAt 2 ⟨[]⟩) "").result =
      Result.panicked "runtime error: makeslice: len out of range" ∧
    (2 : Int) ≠ 0 := by
  decide

/-- C3, amended: on a freshly constructed working tracer (depth 0: the private
depth field of the configuration holds its zero value), `Exit` with any label
panics with the negative-depth message; and from a state with depth `d ≥ 0`,
`Exit` fails if and only if `d = 0` or the indentation width at the
decremented depth, the product of `d - 1` and `SpacesPerIndent` as the 64-bit
multiplication of the code yields it, is negative or more than the runtime can
allocate.  So it fails if and only if `d = 0` when the spacing is not negative
and the width `(d - 1) * SpacesPerIndent` can be allocated, and in every state
a freshly constructed tracer reaches by calls that all complete. -/
theorem exit_fails_iff (lib : GoLib) (opts : Option TracerConfiguration) (d : Int)
    (lg : Logger) (label : String)
    (hen : (NewFunctionTracer lib opts).options.DisableTracing = false)
    (hfresh : (optionsOf opts).currentDepth = 0) (hd : 0 ≤ d) :
    ((NewFunctionTracer lib opts).Exit (NewFunctionTracer lib opts).options label).result =
        Result.panicked "Depth is negative! This should never happen" ∧
      (((NewFunctionTracer lib opts).Exit
            ((NewFunctionTracer lib opts).options.stateAt d lg) label).result.failed = true ↔
        (d = 0 ∨
          wrapInt64 ((d - 1) * (NewFunctionTracer lib opts).options.SpacesPerIndent) < 0 ∨
          (lib.allocLimit : Int) <
            wrapInt64 ((d - 1) * (NewFunctionTracer lib opts).options.SpacesPerIndent))) ∧
      (0 ≤ (NewFunctionTracer lib opts).options.SpacesPerIndent →
        (d - 1) * (NewFunctionTracer lib opts).options.SpacesPerIndent ≤ lib.allocLimit →
        (((NewFunctionTracer lib opts).Exit
            ((NewFunctionTracer lib opts).options.stateAt d lg) label).result.failed = true ↔
          d = 0)) ∧
      (∀ (calls : List Call) (st : TracerConfiguration),
        (NewFunctionTracer lib opts).run (NewFunctionTracer lib opts).options calls =
          ⟨st, Result.returned ()⟩ →
        (((NewFunctionTracer lib opts).Exit st label).result.failed = true ↔
          st.currentDepth = 0)) := by
  obtain ⟨hE, hX, -⟩ := NewFunctionTracer_enabled lib opts hen
  have hle := lib.allocLimit_le
  have hiff : ∀ (e : Int) (lg2 : Logger), 0 ≤ e →
      (((NewFunctionTracer lib opts).Exit
            ((NewFunctionTracer lib opts).options.stateAt e lg2) label).result.failed = true ↔
        (e = 0 ∨
          wrapInt64 ((e - 1) * (NewFunctionTracer lib opts).options.SpacesPerIndent) < 0 ∨
          (lib.allocLimit : Int) <
            wrapInt64 ((e - 1) * (NewFunctionTracer lib opts).options.SpacesPerIndent))) := by
    intro e lg2 he
    rw [hX, exitFunc_failed_iff]
    constructor
    · rintro (h | h)
      · exact Or.inl (by omega)
      · exact Or.inr h
    · rintro (h | h)
      · exact Or.inl (by omega)
      · exact Or.inr h
  have hf := NewFunctionTracer_fresh lib opts hen
  rw [hfresh] at hf
  refine ⟨?_, hiff d lg hd, ?_, ?_⟩
  · rw [hf, hX, exitFunc_unbalanced lib _ 0 _ label (by decide)]
  · intro hs hl
    rw [hiff d lg hd]
    constructor
    · rintro (h0 | h)
      · exact h0
      · rcases eq_or_lt_of_le hd with h0 | hpos
        · exact h0.symm
        · have hnn : 0 ≤ (d - 1) * (NewFunctionTracer lib opts).options.SpacesPerIndent :=
            mul_nonneg (by omega) hs
          rw [wrapInt64_eq _ (by omega) (by omega)] at h
          omega
    · exact Or.inl
  · intro calls st hrun
    rw [hf] at hrun
    obtain ⟨d2, lg2, hst, hd2, hlev⟩ := run_levels lib _ _ hE hX calls 0 _ st (le_refl 0)
      (fun e he0 he1 => absurd he1 (not_lt.mpr he0)) hrun
    subst hst
    rw [hiff d2 lg2 hd2]
    have hcd : ((NewFunctionTracer lib opts).options.stateAt d2 lg2).currentDepth = d2 := rfl
    rw [hcd]
    constructor
    · rintro (h0 | h)
      · exact h0
      · rcases eq_or_lt_of_le hd2 with h0 | hpos
        · exact h0.symm
        · obtain ⟨hw, hl⟩ := hlev (d2 - 1) (by omega) (by omega)
          omega
    · exact Or.inl

/-- C3 at a concrete input: a tracer with `SpacesPerIndent = -6148914691236517205`
at depth 4, where three times the spacing is 1 in 64-bit arithmetic, so that
`Exit` does not fail. -/
theorem exit_fails_iff_witness :
    (NewFunctionTracer GoLib.sample (some { TracerConfiguration.zero with
        SpacesPerIndent := -6148914691236517205 })).options.DisableTracing = false ∧
    (optionsOf (some { TracerConfiguration.zero with
        SpacesPerIndent := -6148914691236517205 })).currentDepth = 0 ∧
    (0 : Int) ≤ 4 ∧
    (((NewFunctionTracer GoLib.sample (some { TracerConfiguration.zero with
          SpacesPerIndent := -6148914691236517205 })).Exit
        ((NewFunctionTracer GoLib.sample (some { TracerConfiguration.zero with
          SpacesPerIndent := -6148914691236517205 })).options.stateAt 4 ⟨[]⟩) "").result.failed
          = true ↔
      ((4 : Int) = 0 ∨
        wrapInt64 ((4 - 1) * (NewFunctionTracer GoLib.sample (some { TracerConfiguration.zero with
          SpacesPerIndent := -6148914691236517205 })).options.SpacesPerIndent) < 0 ∨
        (GoLib.sample.allocLimit : Int) <
          wrapInt64 ((4 - 1) * (NewFunctionTracer GoLib.sample
            (some { TracerConfiguration.zero with
              SpacesPerIndent := -6148914691236517205 })).options.SpacesPerIndent))) ∧
    ((NewFunctionTracer GoLib.sample (some { TracerConfiguration.zero with
          SpacesPerIndent := -6148914691236517205 })).Exit
        ((NewFunctionTracer GoLib.sample (some { TracerConfiguration.zero with
          SpacesPerIndent := -6148914691236517205 })).options.stateAt 4 ⟨[]⟩) "").result =
      Result.returned () :=
  ⟨by decide, by decide, by decide,
    (exit_fails_iff GoLib.sample (some { TracerConfiguration.zero with
        SpacesPerIndent := -6148914691236517205 }) 4 ⟨[]⟩ "" (by decide) (by decide)
      (by decide)).2.1,
    by decide⟩

/-! ## C4: the default configuration -/

/-- C4: under the default configuration (nil options, or options in which at
most the logger is set), the calls `Enter(t1)`, `Enter(t2)`, `Exit` with the
label of the second, `Exit` with the label of the first on a fresh tracer, for
two templates with neither `%` nor `#FN` in them (such as FIRST and SECOND),
hand the logger exactly four records, in this order: `[ 0]Entering Function: `
and `t1`, `[ 1]  Entering Function: ` and `t2`, `[ 1]  Exiting Function:  ` and
`t2`, `[ 0]Exiting Function:  ` and `t1`, each ended by a line feed. -/
theorem default_configuration_nested_lines (lib : GoLib) (opts : Option TracerConfiguration)
    (c1 c2 : Option String) (t1 t2 : String)
    (hdef : optionsOf opts =
      { TracerConfiguration.zero with CustomLogger := (optionsOf opts).CustomLogger })
    (h1v : '%' ∉ t1.data) (h1m : ¬ ['#', 'F', 'N'] <:+: t1.data)
    (h2v : '%' ∉ t2.data) (h2m : ¬ ['#', 'F', 'N'] <:+: t2.data) :
    (NewFunctionTracer lib opts).runNested (NewFunctionTracer lib opts).options
        [(c1, [GoValue.str t1]), (c2, [GoValue.str t2])] =
      ⟨(NewFunctionTracer lib opts).options.stateAt 0
          ⟨logOf (NewFunctionTracer lib opts).options ++
            ["[ 0]Entering Function: " ++ t1 ++ "\n",
              "[ 1]  Entering Function: " ++ t2 ++ "\n",
              "[ 1]  Exiting Function:  " ++ t2 ++ "\n",
              "[ 0]Exiting Function:  " ++ t1 ++ "\n"]⟩,
        Result.returned ()⟩ := by
  have hen : (NewFunctionTracer lib opts).options.DisableTracing = false := by
    rw [NewFunctionTracer_DisableTracing, hdef]; rfl
  have hfresh : (optionsOf opts).currentDepth = 0 := by rw [hdef]; rfl
  obtain ⟨-, -, ho⟩ := NewFunctionTracer_enabled lib opts hen
  have hsp : (NewFunctionTracer lib opts).options.SpacesPerIndent = 2 := by
    rw [ho, applyDefaults_SpacesPerIndent, hdef]; rfl
  have hdd : (NewFunctionTracer lib opts).options.DisableDepthValue = false := by
    rw [ho, applyDefaults_DisableDepthValue, hdef]; rfl
  have hem : (NewFunctionTracer lib opts).options.EnterMessage = "Entering Function: " := by
    rw [ho, applyDefaults_EnterMessage, hdef]; rfl
  have hxm : (NewFunctionTracer lib opts).options.ExitMessage = "Exiting Function:  " := by
    rw [ho, applyDefaults_ExitMessage, hdef]; rfl
  have hl : ∀ d, lineStart (NewFunctionTracer lib opts).options d =
      lineStart { TracerConfiguration.zero with SpacesPerIndent := 2 } d :=
    fun d => lineStart_congr _ _ d hdd hsp
  have hlim : (2 : Int) ≤ lib.allocLimit := by
    have hge := lib.allocLimit_ge
    omega
  rw [nested_pair_lines lib opts c1 c2 t1 t2 hen hfresh (by rw [hsp]; decide)
    (by rw [hsp]; exact hlim) h1v h1m h2v h2m, hl 0, hl 1, hem, hxm]
  rfl

/-- C4 at a concrete input: nil options and the templates FIRST and SECOND. -/
theorem default_configuration_nested_lines_witness :
    (NewFunctionTracer GoLib.sample none).runNested (NewFunctionTracer GoLib.sample none).options
        [(some "main.first", [GoValue.str "FIRST"]),
          (some "main.second", [GoValue.str "SECOND"])] =
      ⟨(NewFunctionTracer GoLib.sample none).options.stateAt 0
          ⟨logOf (NewFunctionTracer GoLib.sample none).options ++
            ["[ 0]Entering Function: " ++ "FIRST" ++ "\n",
              "[ 1]  Entering Function: " ++ "SECOND" ++ "\n",
              "[ 1]  Exiting Function:  " ++ "SECOND" ++ "\n",
              "[ 0]Exiting Function:  " ++ "FIRST" ++ "\n"]⟩,
        Result.returned ()⟩ :=
  default_configuration_nested_lines GoLib.sample none (some "main.first") (some "main.second")
    "FIRST" "SECOND" (by decide) (by decide) (by decide) (by decide) (by decide)

/-! ## C5: matching line starts -/

/-- C5, as stated, fails: with `SpacesPerIndent = -1` on a fresh working tracer,
in a run of two nested calls the second `Enter` (at depth 1) panics in
`strings.Repeat`, so it has no line rendered with depth 1 and no `Exit` was
deferred for it; its deferred increment leaves depth 2.  While the panic
unwinds, the `Exit` deferred by the first function runs: it decrements the
depth to 1 and panics in `strings.Repeat` as well, so no exit line is logged
at all and the depth left behind is 1.  With `SpacesPerIndent = 2^62` the run
fails in the same way: the count at depth 1 is more than the runtime can
address. -/
theorem nested_negative_spacing_panics :
    (NewFunctionTracer GoLib.sample
        (some { TracerConfiguration.zero with SpacesPerIndent := -1 })).options.DisableTracing
      = false ∧
    (NewFunctionTracer GoLib.sample
        (some { TracerConfiguration.zero with SpacesPerIndent := -1 })).runNested
      (NewFunctionTracer GoLib.sample
        (some { TracerConfiguration.zero with SpacesPerIndent := -1 })).options
      [(none, [GoValue.str "FIRST"]), (none, [GoValue.str "SECOND"])] =
      ⟨(NewFunctionTracer GoLib.sample
          (some { TracerConfiguration.zero with SpacesPerIndent := -1 })).options.stateAt 1
          ⟨["[ 0]Entering Function: FIRST\n"]⟩,
        Result.panicked "strings: negative Repeat count"⟩ ∧
    (NewFunctionTracer GoLib.sample
        (some { TracerConfiguration.zero with SpacesPerIndent := 4611686018427387904 })).runNested
      (NewFunctionTracer GoLib.sample
        (some { TracerConfiguration.zero with SpacesPerIndent := 4611686018427387904 })).options
      [(none, [GoValue.str "FIRST"]), (none, [GoValue.str "SECOND"])] =
      ⟨(NewFunctionTracer GoLib.sample
        (some { TracerConfiguration.zero with SpacesPerIndent := 4611686018427387904 })).options.stateAt 1
          ⟨["[ 0]Entering Function: FIRST\n"]⟩,
        Result.panicked "runtime error: makeslice: len out of range"⟩ := by
  decide

/-- C5, amended: on a working tracer whose normalised spacing is not negative,
started fresh, a run of `N` nested calls (`N` calls of `Enter`, then the `N`
matching calls of `Exit` in reverse order) whose deepest line, at depth
`N - 1`, is indented by no more than the runtime can allocate completes, the
record at position `k` (counted from 0) is the enter line of the call at
position `k`, rendered with the line start of depth `k`, and the record at
position `k` counted from the end is its exit line, rendered with the same
line start.  More generally, if `Enter` is called at depth `d ≥ 0`, followed
by any balanced sequence of `Enter` and `Exit` calls, followed by `Exit`, and
every line of the run is indented by no more than the runtime can allocate,
then the run completes at depth `d` and the line of that `Exit` starts with
the line start of that `Enter`, the one `spaceOpt` renders at depth `d`. -/
theorem enter_exit_line_starts_match (lib : GoLib) (opts : Option TracerConfiguration)
    (chain : List (Option String × List GoValue))
    (d : Int) (lg : Logger) (caller : Option String) (args : List GoValue)
    (calls : List Call) (label : String)
    (hen : (NewFunctionTracer lib opts).options.DisableTracing = false)
    (hfresh : (optionsOf opts).currentDepth = 0)
    (hs : 0 ≤ (NewFunctionTracer lib opts).options.SpacesPerIndent)
    (hchain : ((chain.length : Int) - 1) *
      (NewFunctionTracer lib opts).options.SpacesPerIndent ≤ lib.allocLimit)
    (hd : 0 ≤ d) (hb : Balanced calls)
    (hdl : d * (NewFunctionTracer lib opts).options.SpacesPerIndent ≤ lib.allocLimit)
    (hin : ∀ e ∈ lineDepths 0 calls,
      (d + 1 + (e : Int)) * (NewFunctionTracer lib opts).options.SpacesPerIndent ≤
        lib.allocLimit) :
    (∃ lines : List String,
      (NewFunctionTracer lib opts).runNested (NewFunctionTracer lib opts).options chain =
        ⟨(NewFunctionTracer lib opts).options.stateAt 0
          ⟨logOf (NewFunctionTracer lib opts).options ++ lines⟩, Result.returned ()⟩ ∧
      lines.length = 2 * chain.length ∧
      ∀ (k : Nat) (hk : k < chain.length),
        spaceOpt lib ((NewFunctionTracer lib opts).options.stateAt k lg) =
          Result.returned (lineStart (NewFunctionTracer lib opts).options k) ∧
        lines[k]? = some (lineStart (NewFunctionTracer lib opts).options k ++
          (NewFunctionTracer lib opts).options.EnterMessage ++
          traceMessage lib chain[k].1 chain[k].2 ++ "\n") ∧
        lines[2 * chain.length - 1 - k]? =
          some (lineStart (NewFunctionTracer lib opts).options k ++
            (NewFunctionTracer lib opts).options.ExitMessage ++
            traceMessage lib chain[k].1 chain[k].2 ++ "\n")) ∧
    (spaceOpt lib ((NewFunctionTracer lib opts).options.stateAt d lg) =
        Result.returned (lineStart (NewFunctionTracer lib opts).options d) ∧
      ∃ middle : List String,
        (NewFunctionTracer lib opts).run ((NewFunctionTracer lib opts).options.stateAt d lg)
            (Call.enter caller args :: calls ++ [Call.exit label]) =
          ⟨(NewFunctionTracer lib opts).options.stateAt d
            ⟨lg.written ++
              [lineStart (NewFunctionTracer lib opts).options d ++
                (NewFunctionTracer lib opts).options.EnterMessage ++
                traceMessage lib caller args ++ "\n"] ++ middle ++
              [lineStart (NewFunctionTracer lib opts).options d ++
                (NewFunctionTracer lib opts).options.ExitMessage ++ label ++ "\n"]⟩,
            Result.returned ()⟩) := by
  obtain ⟨hE, hX, -⟩ := NewFunctionTracer_enabled lib opts hen
  have hf := NewFunctionTracer_fresh lib opts hen
  rw [hfresh] at hf
  generalize (NewFunctionTracer lib opts) = p at *
  have hsp : ∀ (e : Int), 0 ≤ e → e * p.options.SpacesPerIndent ≤ lib.allocLimit →
      spaceOpt lib (p.options.stateAt e lg) = Result.returned (lineStart p.options e) :=
    fun e he hel => spaceOpt_lineStart lib p.options e lg (mul_nonneg he hs) hel
  refine ⟨⟨nestedLines lib p.options 0 chain, ?_, nestedLines_length lib p.options chain 0,
    fun k hk => ⟨hsp k (by omega)
      (width_le_of_le lib _ _ _ hs (by omega) hchain), ?_⟩⟩, hsp d hd hdl, ?_⟩
  · generalize logOf p.options = lg0 at *
    conv_lhs => rw [hf]
    exact runNested_working lib p p.options hE hX hs chain 0 _ (le_refl 0)
      (by rw [zero_add]; exact hchain)
  · have := nestedLines_getElem lib p.options chain 0 k hk
    simpa using this
  · obtain ⟨middle, hmid⟩ := run_balanced lib p p.options hE hX hs calls 0 (d + 1)
      ⟨lg.written ++ [lineStart p.options d ++ p.options.EnterMessage ++
        traceMessage lib caller args ++ "\n"]⟩ (by omega) ((balanced_iff calls).mp hb) hin
    refine ⟨middle, ?_⟩
    have hw : 0 ≤ d * p.options.SpacesPerIndent := mul_nonneg hd hs
    have hw1 : 0 ≤ (d + 1 - 1) * p.options.SpacesPerIndent := mul_nonneg (by omega) hs
    have hl1 : (d + 1 - 1) * p.options.SpacesPerIndent ≤ lib.allocLimit := by
      rw [add_sub_cancel_right]; exact hdl
    simp only [Nat.cast_zero, add_zero] at hmid
    rw [List.cons_append, TracerPair.run,
      call_enter_working lib p p.options hE d lg caller args hw hdl]
    simp only
    rw [run_append, hmid]
    simp only
    rw [TracerPair.run, call_exit_working lib p p.options hX (d + 1) _ label (by omega) hw1 hl1]
    simp [TracerPair.run]

/-- C5 at a concrete input: three nested calls on the default tracer, and an
`Enter` at depth 1 closed by an `Exit` after two balanced inner calls. -/
theorem enter_exit_line_starts_match_witness :
    (NewFunctionTracer GoLib.sample none).options.DisableTracing = false ∧
    Balanced [Call.enter none [], Call.exit "a", Call.enter none [], Call.exit "b"] ∧
    (∀ e ∈ lineDepths 0 [Call.enter none [], Call.exit "a", Call.enter none [], Call.exit "b"],
      ((1 : Int) + 1 + (e : Int)) * (NewFunctionTracer GoLib.sample none).options.SpacesPerIndent ≤
        GoLib.sample.allocLimit) ∧
    (∃ lines : List String,
      (NewFunctionTracer GoLib.sample none).runNested
          (NewFunctionTracer GoLib.sample none).options
          [(none, [GoValue.str "FIRST"]), (none, [GoValue.str "SECOND"]),
            (some "main.third", [])] =
        ⟨(NewFunctionTracer GoLib.sample none).options.stateAt 0
          ⟨logOf (NewFunctionTracer GoLib.sample none).options ++ lines⟩,
          Result.returned ()⟩ ∧
      lines.length = 2 * 3) ∧
    (∃ middle : List String,
      (NewFunctionTracer GoLib.sample none).run
          ((NewFunctionTracer GoLib.sample none).options.stateAt 1 ⟨["\n"]⟩)
          (Call.enter none [GoValue.str "outer"] ::
            [Call.enter none [], Call.exit "a", Call.enter none [], Call.exit "b"] ++
            [Call.exit "some label"]) =
        ⟨(NewFunctionTracer GoLib.sample none).options.stateAt 1
          ⟨["\n"] ++ ["[ 1]  Entering Function: outer\n"] ++ middle ++
            ["[ 1]  Exiting Function:  some label\n"]⟩,
          Result.returned ()⟩) :=
  ⟨by decide, (balanced_iff _).mpr (by decide), by decide,
    match (enter_exit_line_starts_match GoLib.sample none
      [(none, [GoValue.str "FIRST"]), (none, [GoValue.str "SECOND"]), (some "main.third", [])]
      1 ⟨["\n"]⟩ none [GoValue.str "outer"]
      [Call.enter none [], Call.exit "a", Call.enter none [], Call.exit "b"] "some label"
      (by decide) (by decide) (by decide) (by decide) (by decide)
      ((balanced_iff _).mpr (by decide)) (by decide) (by decide)).1 with
    | ⟨lines, hrun, hlen, _⟩ => ⟨lines, hrun, hlen⟩,
    (enter_exit_line_starts_match GoLib.sample none
      [(none, [GoValue.str "FIRST"]), (none, [GoValue.str "SECOND"]), (some "main.third", [])]
      1 ⟨["\n"]⟩ none [GoValue.str "outer"]
      [Call.enter none [], Call.exit "a", Call.enter none [], Call.exit "b"] "some label"
      (by decide) (by decide) (by decide) (by decide) (by decide)
      ((balanced_iff _).mpr (by decide)) (by decide) (by decide)).2.2⟩

/-! ## C6: balanced sequences -/

/-- C6, as stated, fails: with `SpacesPerIndent = -3` the balanced sequence
`Enter`, `Enter`, `Exit`, `Exit` run from depth 0 stops at its second call,
which panics in `strings.Repeat`; the depth left behind is 2.  With
`SpacesPerIndent = 2^62` it stops at its second call too: the count at depth 1
is more than the runtime can address. -/
theorem balanced_run_negative_spacing_panics :
    (NewFunctionTracer GoLib.sample
        (some { TracerConfiguration.zero with SpacesPerIndent := -3 })).options.DisableTracing
      = false ∧
    Balanced [Call.enter none [GoValue.str "a"], Call.enter none [GoValue.str "b"],
      Call.exit "b", Call.exit "a"] ∧
    (NewFunctionTracer GoLib.sample
        (some { TracerConfiguration.zero with SpacesPerIndent := -3 })).run
      ((NewFunctionTracer GoLib.sample
        (some { TracerConfiguration.zero with SpacesPerIndent := -3 })).options.stateAt 0 ⟨[]⟩)
      [Call.enter none [GoValue.str "a"], Call.enter none [GoValue.str "b"],
        Call.exit "b", Call.exit "a"] =
      ⟨(NewFunctionTracer GoLib.sample
          (some { TracerConfiguration.zero with SpacesPerIndent := -3 })).options.stateAt 2
          ⟨["[ 0]Entering Function: a\n"]⟩,
        Result.panicked "strings: negative Repeat count"⟩ ∧
    (NewFunctionTracer GoLib.sample
        (some { TracerConfiguration.zero with SpacesPerIndent := 4611686018427387904 })).run
      ((NewFunctionTracer GoLib.sample
        (some { TracerConfiguration.zero with SpacesPerIndent := 4611686018427387904 })).options.stateAt 0 ⟨[]⟩)
      [Call.enter none [GoValue.str "a"], Call.enter none [GoValue.str "b"],
        Call.exit "b", Call.exit "a"] =
      ⟨(NewFunctionTracer GoLib.sample
        (some { TracerConfiguration.zero with SpacesPerIndent := 4611686018427387904 })).options.stateAt 2
          ⟨["[ 0]Entering Function: a\n"]⟩,
        Result.panicked "runtime error: makeslice: len out of range"⟩ :=
  ⟨by decide, (balanced_iff _).mpr (by decide), by decide, by decide⟩

/-- C6, amended: on a working tracer whose normalised spacing is not negative,
from a state with depth `d ≥ 0`, every balanced sequence of `Enter` and `Exit`
calls (every initial part has at least as many `Enter` as `Exit` calls, and the
totals are equal) whose lines are all indented by no more than the runtime can
allocate runs to its end, no call in it fails, the depth after the sequence is
again `d`, and the log has only grown. -/
theorem balanced_run_restores_depth (lib : GoLib) (opts : Option TracerConfiguration)
    (d : Int) (lg : Logger) (calls : List Call)
    (hen : (NewFunctionTracer lib opts).options.DisableTracing = false)
    (hs : 0 ≤ (NewFunctionTracer lib opts).options.SpacesPerIndent)
    (hd : 0 ≤ d) (hb : Balanced calls)
    (hl : ∀ e ∈ lineDepths 0 calls,
      (d + (e : Int)) * (NewFunctionTracer lib opts).options.SpacesPerIndent ≤
        lib.allocLimit) :
    (∃ lines : List String,
      (NewFunctionTracer lib opts).run ((NewFunctionTracer lib opts).options.stateAt d lg) calls =
        ⟨(NewFunctionTracer lib opts).options.stateAt d ⟨lg.written ++ lines⟩,
          Result.returned ()⟩) ∧
    ∀ k, ((NewFunctionTracer lib opts).run
      ((NewFunctionTracer lib opts).options.stateAt d lg) (calls.take k)).result =
        Result.returned () := by
  obtain ⟨hE, hX, -⟩ := NewFunctionTracer_enabled lib opts hen
  obtain ⟨lines, hl⟩ := run_balanced lib _ _ hE hX hs calls 0 d lg hd
    ((balanced_iff calls).mp hb) hl
  simp only [Nat.cast_zero, add_zero] at hl
  exact ⟨⟨lines, hl⟩, run_take_returned _ _ calls (by rw [hl])⟩

/-- C6 at a concrete input: the default tracer at depth 4 and a balanced
sequence of six calls. -/
theorem balanced_run_restores_depth_witness :
    (NewFunctionTracer GoLib.sample none).options.DisableTracing = false ∧
    0 ≤ (NewFunctionTracer GoLib.sample none).options.SpacesPerIndent ∧
    Balanced [Call.enter none [], Call.exit "x", Call.enter none [], Call.enter none [],
      Call.exit "y", Call.exit "z"] ∧
    (∀ e ∈ lineDepths 0 [Call.enter none [], Call.exit "x", Call.enter none [],
        Call.enter none [], Call.exit "y", Call.exit "z"],
      ((4 : Int) + (e : Int)) * (NewFunctionTracer GoLib.sample none).options.SpacesPerIndent ≤
        GoLib.sample.allocLimit) ∧
    (∃ lines : List String,
      (NewFunctionTracer GoLib.sample none).run
          ((NewFunctionTracer GoLib.sample none).options.stateAt 4 ⟨[]⟩)
          [Call.enter none [], Call.exit "x", Call.enter none [], Call.enter none [],
            Call.exit "y", Call.exit "z"] =
        ⟨(NewFunctionTracer GoLib.sample none).options.stateAt 4
            ⟨(⟨[]⟩ : Logger).written ++ lines⟩,
          Result.returned ()⟩) ∧
    ∀ k, ((NewFunctionTracer GoLib.sample none).run
      ((NewFunctionTracer GoLib.sample none).options.stateAt 4 ⟨[]⟩)
      ([Call.enter none [], Call.exit "x", Call.enter none [], Call.enter none [],
            Call.exit "y", Call.exit "z"].take k)).result =
        Result.returned () :=
  ⟨by decide, by decide, (balanced_iff _).mpr (by decide), by decide,
    balanced_run_restores_depth GoLib.sample none 4 ⟨[]⟩
      [Call.enter none [], Call.exit "x", Call.enter none [], Call.enter none [],
        Call.exit "y", Call.exit "z"]
      (by decide) (by decide) (by decide) ((balanced_iff _).mpr (by decide)) (by decide)⟩

/-! ## C7: the line start -/

/-- C7, as stated, fails: a tracer configured with `SpacesPerIndent = 2^62`
keeps that spacing, which is not negative; its first `Enter` returns and
leaves depth 1, and at depth 1 no line start is rendered: the product is
`2^62`, more than the runtime can address, and `spaceOpt` panics in
`strings.Repeat`.  At depth 2 the 64-bit product is `-2^63` and `spaceOpt`
panics on the negative count. -/
theorem line_start_overflow_panics :
    (NewFunctionTracer GoLib.sample (some { TracerConfiguration.zero with
        SpacesPerIndent := 4611686018427387904 })).options.DisableTracing = false ∧
    (NewFunctionTracer GoLib.sample (some { TracerConfiguration.zero with
        SpacesPerIndent := 4611686018427387904 })).options.SpacesPerIndent =
      4611686018427387904 ∧
    (NewFunctionTracer GoLib.sample (some { TracerConfiguration.zero with
        SpacesPerIndent := 4611686018427387904 })).Enter
      (NewFunctionTracer GoLib.sample (some { TracerConfiguration.zero with
        SpacesPerIndent := 4611686018427387904 })).options
      none [GoValue.str "FIRST"] =
      ⟨(NewFunctionTracer GoLib.sample (some { TracerConfiguration.zero with
          SpacesPerIndent := 4611686018427387904 })).options.stateAt 1
          ⟨["[ 0]Entering Function: FIRST\n"]⟩,
        Result.returned "FIRST"⟩ ∧
    spaceOpt GoLib.sample
      ((NewFunctionTracer GoLib.sample (some { TracerConfiguration.zero with
        SpacesPerIndent := 4611686018427387904 })).options.stateAt 1
          ⟨["[ 0]Entering Function: FIRST\n"]⟩) =
      Result.panicked "runtime error: makeslice: len out of range" ∧
    wrapInt64 (2 * 4611686018427387904) = -9223372036854775808 ∧
    spaceOpt GoLib.sample
      ((NewFunctionTracer GoLib.sample (some { TracerConfiguration.zero with
        SpacesPerIndent := 4611686018427387904 })).options.stateAt 2
          ⟨["[ 0]Entering Function: FIRST\n"]⟩) =
      Result.panicked "strings: negative Repeat count" := by
  decide

/-- C7, amended: in every state whose depth `d` and spacing `s` are not
negative and whose product `d * s` is no more than the runtime can allocate,
the line start `spaceOpt` renders is, when the depth display is enabled, `[`,
then the decimal digits of `d` with blanks on their left up to a width of 2,
then `]`, then exactly `d * s` blanks; when the depth display is disabled it
is exactly `d * s` blanks.  With `DisableDepthValue = true` and the default
spacing the FIRST/SECOND scenario logs `Entering Function: FIRST`,
`  Entering Function: SECOND`, `  Exiting Function:  SECOND`,
`Exiting Function:  FIRST`. -/
theorem line_start_rendering (lib : GoLib) (st : TracerConfiguration) (d s : Nat)
    (logger : Option Logger) (c1 c2 : Option String)
    (hd : st.currentDepth = d) (hs : st.SpacesPerIndent = s)
    (hl : d * s ≤ lib.allocLimit) :
    spaceOpt lib st = Result.returned
      (String.mk ((if st.DisableDepthValue then []
          else '[' :: (List.replicate (2 - (Nat.repr d).length) ' ' ++ (Nat.repr d).data ++ [']'])) ++
        List.replicate (d * s) ' ')) ∧
    (NewFunctionTracer lib
        (some { TracerConfiguration.zero with
                  CustomLogger := logger, DisableDepthValue := true })).runNested
      (NewFunctionTracer lib
        (some { TracerConfiguration.zero with
                  CustomLogger := logger, DisableDepthValue := true })).options
      [(c1, [GoValue.str "FIRST"]), (c2, [GoValue.str "SECOND"])] =
      ⟨(NewFunctionTracer lib
          (some { TracerConfiguration.zero with
                    CustomLogger := logger, DisableDepthValue := true })).options.stateAt 0
          ⟨logOf (NewFunctionTracer lib
              (some { TracerConfiguration.zero with
                        CustomLogger := logger, DisableDepthValue := true })).options ++
            ["Entering Function: FIRST\n", "  Entering Function: SECOND\n",
              "  Exiting Function:  SECOND\n", "Exiting Function:  FIRST\n"]⟩,
        Result.returned ()⟩ := by
  constructor
  · have h1 : spaceOpt lib st = spaceOpt lib (st.stateAt d ⟨[]⟩) := by
      unfold spaceOpt TracerConfiguration.stateAt
      simp only [hd]
    rw [h1, spaceOpt_lineStart lib st d _ (by rw [hs]; positivity)
      (by rw [hs]; exact_mod_cast hl), lineStart_chars st d s hs]
  · rw [scenario_lines lib
      (some { TracerConfiguration.zero with CustomLogger := logger, DisableDepthValue := true })
      c1 c2 "FIRST" "SECOND" true 2 "Entering Function: "
      "Exiting Function:  " rfl rfl
      (by rw [applyDefaults_DisableDepthValue]; rfl)
      (by rw [applyDefaults_SpacesPerIndent]; rfl) (by decide)
      (by rw [applyDefaults_EnterMessage]; rfl)
      (by rw [applyDefaults_ExitMessage]; rfl)
      (by decide) (by decide) (by decide) (by decide)]
    rfl

/-- C7 at a concrete input: depth 12 with spacing 3, and the scenario of
`TestDisableDepthValue` with its logger. -/
theorem line_start_rendering_witness :
    12 * 3 ≤ GoLib.sample.allocLimit ∧
    spaceOpt GoLib.sample
        { TracerConfiguration.zero with currentDepth := 12, SpacesPerIndent := 3 } =
      Result.returned
      (String.mk ((if ({ TracerConfiguration.zero with
              currentDepth := 12, SpacesPerIndent := 3 } : TracerConfiguration).DisableDepthValue
          then []
          else '[' :: (List.replicate (2 - (Nat.repr 12).length) ' ' ++
            (Nat.repr 12).data ++ [']'])) ++
        List.replicate (12 * 3) ' ')) ∧
    (NewFunctionTracer GoLib.sample
        (some { TracerConfiguration.zero with
                  CustomLogger := some ⟨["\n"]⟩, DisableDepthValue := true })).runNested
      (NewFunctionTracer GoLib.sample
        (some { TracerConfiguration.zero with
                  CustomLogger := some ⟨["\n"]⟩, DisableDepthValue := true })).options
      [(none, [GoValue.str "FIRST"]), (none, [GoValue.str "SECOND"])] =
      ⟨(NewFunctionTracer GoLib.sample
          (some { TracerConfiguration.zero with
                    CustomLogger := some ⟨["\n"]⟩, DisableDepthValue := true })).options.stateAt 0
          ⟨logOf (NewFunctionTracer GoLib.sample
              (some { TracerConfiguration.zero with
                        CustomLogger := some ⟨["\n"]⟩, DisableDepthValue := true })).options ++
            ["Entering Function: FIRST\n", "  Entering Function: SECOND\n",
              "  Exiting Function:  SECOND\n", "Exiting Function:  FIRST\n"]⟩,
        Result.returned ()⟩ :=
  ⟨by decide,
    line_start_rendering GoLib.sample
      { TracerConfiguration.zero with currentDepth := 12, SpacesPerIndent := 3 } 12 3
      (some ⟨["\n"]⟩) none none rfl rfl (by decide)⟩

/-! ## C8: nesting disabled -/

/-- C8: for every configuration with `DisableNesting = true`, whatever its
`SpacesPerIndent` (zero, positive or negative), the normalised spacing is 0;
so on the working tracer, at every depth, the line start is the bracketed
depth alone (nothing at all when the depth display is disabled), `Enter`
writes that line start, the enter message and the message, and `Exit` at a
depth of at least 1 writes the line start of the decremented depth, the exit
message and the label.  With `DisableNesting = true` and any configured
spacing the FIRST/SECOND scenario logs `[ 0]Entering Function: FIRST`,
`[ 1]Entering Function: SECOND`, `[ 1]Exiting Function:  SECOND`,
`[ 0]Exiting Function:  FIRST`. -/
theorem nesting_disabled_no_indentation (lib : GoLib) (opts : Option TracerConfiguration)
    (d : Int) (lg : Logger) (caller : Option String) (args : List GoValue) (label : String)
    (logger : Option Logger) (k : Int) (c1 c2 : Option String)
    (hn : (optionsOf opts).DisableNesting = true) :
    (applyDefaults (optionsOf opts)).SpacesPerIndent = 0 ∧
    ((NewFunctionTracer lib opts).options.DisableTracing = false →
      (NewFunctionTracer lib opts).options.SpacesPerIndent = 0 ∧
      spaceOpt lib ((NewFunctionTracer lib opts).options.stateAt d lg) =
        Result.returned
          (if (NewFunctionTracer lib opts).options.DisableDepthValue then ""
            else "[" ++ padLeft 2 (fmtInteger d) ++ "]") ∧
      (NewFunctionTracer lib opts).Enter
          ((NewFunctionTracer lib opts).options.stateAt d lg) caller args =
        ⟨(NewFunctionTracer lib opts).options.stateAt (d + 1)
            ⟨lg.written ++
              [(if (NewFunctionTracer lib opts).options.DisableDepthValue then ""
                  else "[" ++ padLeft 2 (fmtInteger d) ++ "]") ++
                (NewFunctionTracer lib opts).options.EnterMessage ++
                traceMessage lib caller args ++ "\n"]⟩,
          Result.returned (traceMessage lib caller args)⟩ ∧
      (1 ≤ d →
        (NewFunctionTracer lib opts).Exit
            ((NewFunctionTracer lib opts).options.stateAt d lg) label =
          ⟨(NewFunctionTracer lib opts).options.stateAt (d - 1)
              ⟨lg.written ++
                [(if (NewFunctionTracer lib opts).options.DisableDepthValue then ""
                    else "[" ++ padLeft 2 (fmtInteger (d - 1)) ++ "]") ++
                  (NewFunctionTracer lib opts).options.ExitMessage ++ label ++ "\n"]⟩,
            Result.returned ()⟩)) ∧
    (NewFunctionTracer lib
        (some { TracerConfiguration.zero with
                  CustomLogger := logger, DisableNesting := true,
                  SpacesPerIndent := k })).runNested
      (NewFunctionTracer lib
        (some { TracerConfiguration.zero with
                  CustomLogger := logger, DisableNesting := true,
                  SpacesPerIndent := k })).options
      [(c1, [GoValue.str "FIRST"]), (c2, [GoValue.str "SECOND"])] =
      ⟨(NewFunctionTracer lib
          (some { TracerConfiguration.zero with
                    CustomLogger := logger, DisableNesting := true,
                    SpacesPerIndent := k })).options.stateAt 0
          ⟨logOf (NewFunctionTracer lib
              (some { TracerConfiguration.zero with
                        CustomLogger := logger, DisableNesting := true,
                        SpacesPerIndent := k })).options ++
            ["[ 0]Entering Function: FIRST\n", "[ 1]Entering Function: SECOND\n",
              "[ 1]Exiting Function:  SECOND\n", "[ 0]Exiting Function:  FIRST\n"]⟩,
        Result.returned ()⟩ := by
  have hz : (applyDefaults (optionsOf opts)).SpacesPerIndent = 0 := by
    rw [applyDefaults_SpacesPerIndent, if_pos hn]
  refine ⟨hz, fun hen => ?_, ?_⟩
  · obtain ⟨hE, hX, ho⟩ := NewFunctionTracer_enabled lib opts hen
    have hs0 : (NewFunctionTracer lib opts).options.SpacesPerIndent = 0 := by rw [ho, hz]
    have hsp : ∀ e, spaceOpt lib ((NewFunctionTracer lib opts).options.stateAt e lg) =
        Result.returned
          (if (NewFunctionTracer lib opts).options.DisableDepthValue then ""
            else "[" ++ padLeft 2 (fmtInteger e) ++ "]") := by
      intro e
      rw [spaceOpt_lineStart lib _ e lg (by rw [hs0, mul_zero])
        (by rw [hs0, mul_zero]; exact Int.natCast_nonneg _), lineStart_no_spacing _ e hs0]
    refine ⟨hs0, hsp d, ?_, fun h1 => ?_⟩
    · rw [hE]
      exact enterFunc_returned lib _ d lg caller args _ (hsp d)
    · rw [hX]
      exact exitFunc_returned lib _ d lg label _ h1 (hsp (d - 1))
  · rw [scenario_lines lib
      (some { TracerConfiguration.zero with
                CustomLogger := logger, DisableNesting := true, SpacesPerIndent := k })
      c1 c2 "FIRST" "SECOND" false 0 "Entering Function: "
      "Exiting Function:  " rfl rfl
      (by rw [applyDefaults_DisableDepthValue]; rfl)
      (by rw [applyDefaults_SpacesPerIndent]; rfl) (by decide)
      (by rw [applyDefaults_EnterMessage]; rfl)
      (by rw [applyDefaults_ExitMessage]; rfl)
      (by decide) (by decide) (by decide) (by decide)]
    rfl

/-- C8 at a concrete input: nesting disabled with a configured spacing of -4,
at depth 7. -/
theorem nesting_disabled_no_indentation_witness :
    (optionsOf (some { TracerConfiguration.zero with
        DisableNesting := true, SpacesPerIndent := -4 })).DisableNesting = true ∧
    (NewFunctionTracer GoLib.sample (some { TracerConfiguration.zero with
        DisableNesting := true, SpacesPerIndent := -4 })).options.SpacesPerIndent = 0 ∧
    (NewFunctionTracer GoLib.sample (some { TracerConfiguration.zero with
        DisableNesting := true, SpacesPerIndent := -4 })).Enter
      ((NewFunctionTracer GoLib.sample (some { TracerConfiguration.zero with
        DisableNesting := true, SpacesPerIndent := -4 })).options.stateAt 7 ⟨[]⟩)
      none [GoValue.int 5] =
      ⟨(NewFunctionTracer GoLib.sample (some { TracerConfiguration.zero with
          DisableNesting := true, SpacesPerIndent := -4 })).options.stateAt 8
          ⟨["[ 7]Entering Function: <unknown>\n"]⟩,
        Result.returned "<unknown>"⟩ :=
  ⟨rfl,
    ((nesting_disabled_no_indentation GoLib.sample
      (some { TracerConfiguration.zero with DisableNesting := true, SpacesPerIndent := -4 })
      7 ⟨[]⟩ none [GoValue.int 5] "x" none (-4) none none rfl).2.1 (by decide)).1,
    ((nesting_disabled_no_indentation GoLib.sample
      (some { TracerConfiguration.zero with DisableNesting := true, SpacesPerIndent := -4 })
      7 ⟨[]⟩ none [GoValue.int 5] "x" none (-4) none none rfl).2.1 (by decide)).2.2.1⟩

/-! ## C9: the spacing with nesting enabled -/

/-- C9, as stated, fails: with nesting enabled the non-zero value
`SpacesPerIndent = -3` is kept as `-3`; the first `Enter` of the FIRST/SECOND
scenario writes its line at depth 0, but no line at depth 1 is indented by
`1 * (-3)` blanks: rendering the line start at depth 1 panics in
`strings.Repeat`, and the second `Enter` writes no line.  The non-zero value
`SpacesPerIndent = 2^62` is kept as well, and no line at depth 1 is indented
by `2^62` blanks: the count is more than the runtime can address. -/
theorem negative_spacing_kept_then_panics :
    (NewFunctionTracer GoLib.sample
        (some { TracerConfiguration.zero with SpacesPerIndent := -3 })).options.DisableTracing
      = false ∧
    (NewFunctionTracer GoLib.sample
        (some { TracerConfiguration.zero with SpacesPerIndent := -3 })).options.DisableNesting
      = false ∧
    (NewFunctionTracer GoLib.sample
        (some { TracerConfiguration.zero with SpacesPerIndent := -3 })).options.SpacesPerIndent
      = -3 ∧
    (NewFunctionTracer GoLib.sample
        (some { TracerConfiguration.zero with SpacesPerIndent := -3 })).Enter
      (NewFunctionTracer GoLib.sample
        (some { TracerConfiguration.zero with SpacesPerIndent := -3 })).options
      none [GoValue.str "FIRST"] =
      ⟨(NewFunctionTracer GoLib.sample
          (some { TracerConfiguration.zero with SpacesPerIndent := -3 })).options.stateAt 1
          ⟨["[ 0]Entering Function: FIRST\n"]⟩,
        Result.returned "FIRST"⟩ ∧
    spaceOpt GoLib.sample ((NewFunctionTracer GoLib.sample
        (some { TracerConfiguration.zero with SpacesPerIndent := -3 })).options.stateAt 1
          ⟨["[ 0]Entering Function: FIRST\n"]⟩)
      = Result.panicked "strings: negative Repeat count" ∧
    (NewFunctionTracer GoLib.sample
        (some { TracerConfiguration.zero with SpacesPerIndent := -3 })).Enter
      ((NewFunctionTracer GoLib.sample
        (some { TracerConfiguration.zero with SpacesPerIndent := -3 })).options.stateAt 1
          ⟨["[ 0]Entering Function: FIRST\n"]⟩)
      none [GoValue.str "SECOND"] =
      ⟨(NewFunctionTracer GoLib.sample
          (some { TracerConfiguration.zero with SpacesPerIndent := -3 })).options.stateAt 2
          ⟨["[ 0]Entering Function: FIRST\n"]⟩,
        Result.panicked "strings: negative Repeat count"⟩ ∧
    (NewFunctionTracer GoLib.sample
        (some { TracerConfiguration.zero with SpacesPerIndent := 4611686018427387904 })).options.SpacesPerIndent
      = 4611686018427387904 ∧
    (NewFunctionTracer GoLib.sample
        (some { TracerConfiguration.zero with SpacesPerIndent := 4611686018427387904 })).Enter
      ((NewFunctionTracer GoLib.sample
        (some { TracerConfiguration.zero with SpacesPerIndent := 4611686018427387904 })).options.stateAt 1
          ⟨["[ 0]Entering Function: FIRST\n"]⟩)
      none [GoValue.str "SECOND"] =
      ⟨(NewFunctionTracer GoLib.sample
        (some { TracerConfiguration.zero with SpacesPerIndent := 4611686018427387904 })).options.stateAt 2
          ⟨["[ 0]Entering Function: FIRST\n"]⟩,
        Result.panicked "runtime error: makeslice: len out of range"⟩ := by
  decide

/-- C9, amended: for every tracing-enabled configuration with nesting enabled,
the normalised spacing is 2 if `SpacesPerIndent` is 0 (unset), and a non-zero
`SpacesPerIndent` is kept as it is, negative values included; when the
normalised spacing `s` is not negative and the product `d * s` is no more
than the runtime can allocate, the line start at depth `d ≥ 0` is the
bracketed depth (unless the depth display is disabled) followed by exactly
`d * s` blanks.  With `SpacesPerIndent = 3` the FIRST/SECOND scenario logs
`[ 0]Entering Function: FIRST`, `[ 1]   Entering Function: SECOND`,
`[ 1]   Exiting Function:  SECOND`, `[ 0]Exiting Function:  FIRST`. -/
theorem nesting_enabled_spacing (lib : GoLib) (opts : Option TracerConfiguration)
    (d s : Nat) (lg : Logger) (logger : Option Logger) (c1 c2 : Option String)
    (hen : (NewFunctionTracer lib opts).options.DisableTracing = false)
    (hn : (optionsOf opts).DisableNesting = false) :
    (NewFunctionTracer lib opts).options.SpacesPerIndent =
        (if (optionsOf opts).SpacesPerIndent = 0 then 2
          else (optionsOf opts).SpacesPerIndent) ∧
    ((NewFunctionTracer lib opts).options.SpacesPerIndent = s →
      d * s ≤ lib.allocLimit →
      spaceOpt lib ((NewFunctionTracer lib opts).options.stateAt d lg) =
        Result.returned (String.mk
          ((if (NewFunctionTracer lib opts).options.DisableDepthValue then []
            else '[' :: (List.replicate (2 - (Nat.repr d).length) ' ' ++
              (Nat.repr d).data ++ [']'])) ++
          List.replicate (d * s) ' '))) ∧
    (NewFunctionTracer lib
        (some { TracerConfiguration.zero with
                  CustomLogger := logger, SpacesPerIndent := 3 })).runNested
      (NewFunctionTracer lib
        (some { TracerConfiguration.zero with
                  CustomLogger := logger, SpacesPerIndent := 3 })).options
      [(c1, [GoValue.str "FIRST"]), (c2, [GoValue.str "SECOND"])] =
      ⟨(NewFunctionTracer lib
          (some { TracerConfiguration.zero with
                    CustomLogger := logger, SpacesPerIndent := 3 })).options.stateAt 0
          ⟨logOf (NewFunctionTracer lib
              (some { TracerConfiguration.zero with
                        CustomLogger := logger, SpacesPerIndent := 3 })).options ++
            ["[ 0]Entering Function: FIRST\n", "[ 1]   Entering Function: SECOND\n",
              "[ 1]   Exiting Function:  SECOND\n", "[ 0]Exiting Function:  FIRST\n"]⟩,
        Result.returned ()⟩ := by
  obtain ⟨-, -, ho⟩ := NewFunctionTracer_enabled lib opts hen
  refine ⟨?_, fun hs hl => ?_, ?_⟩
  · rw [ho, applyDefaults_SpacesPerIndent, hn]
    rfl
  · rw [spaceOpt_lineStart lib _ d lg (by rw [hs]; positivity)
      (by rw [hs]; exact_mod_cast hl), lineStart_chars _ d s hs]
  · rw [scenario_lines lib
      (some { TracerConfiguration.zero with CustomLogger := logger, SpacesPerIndent := 3 })
      c1 c2 "FIRST" "SECOND" false 3 "Entering Function: "
      "Exiting Function:  " rfl rfl
      (by rw [applyDefaults_DisableDepthValue]; rfl)
      (by rw [applyDefaults_SpacesPerIndent]; rfl) (by decide)
      (by rw [applyDefaults_EnterMessage]; rfl)
      (by rw [applyDefaults_ExitMessage]; rfl)
      (by decide) (by decide) (by decide) (by decide)]
    rfl

/-- C9 at a concrete input: a configured spacing of 5, at depth 2. -/
theorem nesting_enabled_spacing_witness :
    (NewFunctionTracer GoLib.sample
        (some { TracerConfiguration.zero with SpacesPerIndent := 5 })).options.DisableTracing
      = false ∧
    (optionsOf (some { TracerConfiguration.zero with SpacesPerIndent := 5 })).DisableNesting
      = false ∧
    (NewFunctionTracer GoLib.sample
        (some { TracerConfiguration.zero with SpacesPerIndent := 5 })).options.SpacesPerIndent
      = 5 ∧
    2 * 5 ≤ GoLib.sample.allocLimit ∧
    spaceOpt GoLib.sample ((NewFunctionTracer GoLib.sample
        (some { TracerConfiguration.zero with SpacesPerIndent := 5 })).options.stateAt 2 ⟨[]⟩)
      = Result.returned "[ 2]          " :=
  ⟨by decide, rfl,
    (nesting_enabled_spacing GoLib.sample
      (some { TracerConfiguration.zero with SpacesPerIndent := 5 }) 2 5 ⟨[]⟩ none none none
      (by decide) rfl).1,
    by decide,
    (nesting_enabled_spacing GoLib.sample
      (some { TracerConfiguration.zero with SpacesPerIndent := 5 }) 2 5 ⟨[]⟩ none none none
      (by decide) rfl).2.1 (by decide) (by decide)⟩

/-! ## C10: the enter and exit messages -/

/-- C10: for every tracing-enabled configuration, the enter message the tracer
uses is `Entering Function: ` (one blank at the end) if `EnterMessage` is
empty and the configured `EnterMessage` otherwise, the exit message is
`Exiting Function:  ` (two blanks at the end) if `ExitMessage` is empty and the
configured `ExitMessage` otherwise, each depending on its own field alone;
whenever the line start of a depth `d ≥ 0` is rendered, the line `Enter` writes
at depth `d` is that line start, the enter message and the trace message, and
the line `Exit` writes when it returns to depth `d` is that line start, the
exit message and the label.  With `EnterMessage` set to
`enter: ` and `ExitMessage` to `exit:  ` the FIRST/SECOND scenario logs
`[ 0]enter: FIRST`, `[ 1]  enter: SECOND`, `[ 1]  exit:  SECOND`,
`[ 0]exit:  FIRST`. -/
theorem enter_exit_message_defaults (lib : GoLib) (opts : Option TracerConfiguration)
    (d : Int) (lg : Logger) (caller : Option String) (args : List GoValue)
    (label pre : String) (logger : Option Logger) (c1 c2 : Option String)
    (hen : (NewFunctionTracer lib opts).options.DisableTracing = false) (hd : 0 ≤ d) :
    (NewFunctionTracer lib opts).options.EnterMessage =
        (if (optionsOf opts).EnterMessage = "" then "Entering Function: "
          else (optionsOf opts).EnterMessage) ∧
    (NewFunctionTracer lib opts).options.ExitMessage =
        (if (optionsOf opts).ExitMessage = "" then "Exiting Function:  "
          else (optionsOf opts).ExitMessage) ∧
    (spaceOpt lib ((NewFunctionTracer lib opts).options.stateAt d lg) = Result.returned pre →
      logOf ((NewFunctionTracer lib opts).Enter
          ((NewFunctionTracer lib opts).options.stateAt d lg) caller args).options =
        lg.written ++
          [pre ++
            (if (optionsOf opts).EnterMessage = "" then "Entering Function: "
              else (optionsOf opts).EnterMessage) ++
            traceMessage lib caller args ++ "\n"] ∧
      logOf ((NewFunctionTracer lib opts).Exit
          ((NewFunctionTracer lib opts).options.stateAt (d + 1) lg) label).options =
        lg.written ++
          [pre ++
            (if (optionsOf opts).ExitMessage = "" then "Exiting Function:  "
              else (optionsOf opts).ExitMessage) ++
            label ++ "\n"]) ∧
    (NewFunctionTracer lib
        (some { TracerConfiguration.zero with
                  CustomLogger := logger, EnterMessage := "enter: ",
                  ExitMessage := "exit:  " })).runNested
      (NewFunctionTracer lib
        (some { TracerConfiguration.zero with
                  CustomLogger := logger, EnterMessage := "enter: ",
                  ExitMessage := "exit:  " })).options
      [(c1, [GoValue.str "FIRST"]), (c2, [GoValue.str "SECOND"])] =
      ⟨(NewFunctionTracer lib
          (some { TracerConfiguration.zero with
                    CustomLogger := logger, EnterMessage := "enter: ",
                    ExitMessage := "exit:  " })).options.stateAt 0
          ⟨logOf (NewFunctionTracer lib
              (some { TracerConfiguration.zero with
                        CustomLogger := logger, EnterMessage := "enter: ",
                        ExitMessage := "exit:  " })).options ++
            ["[ 0]enter: FIRST\n", "[ 1]  enter: SECOND\n",
              "[ 1]  exit:  SECOND\n", "[ 0]exit:  FIRST\n"]⟩,
        Result.returned ()⟩ := by
  obtain ⟨hE, hX, ho⟩ := NewFunctionTracer_enabled lib opts hen
  have hem : (NewFunctionTracer lib opts).options.EnterMessage =
      (if (optionsOf opts).EnterMessage = "" then "Entering Function: "
        else (optionsOf opts).EnterMessage) := by
    rw [ho, applyDefaults_EnterMessage]
  have hxm : (NewFunctionTracer lib opts).options.ExitMessage =
      (if (optionsOf opts).ExitMessage = "" then "Exiting Function:  "
        else (optionsOf opts).ExitMessage) := by
    rw [ho, applyDefaults_ExitMessage]
  refine ⟨hem, hxm, fun hp => ⟨?_, ?_⟩, ?_⟩
  · rw [hE, enterFunc_returned lib _ d lg caller args pre hp, hem]
    rfl
  · have hp1 : spaceOpt lib ((NewFunctionTracer lib opts).options.stateAt (d + 1 - 1) lg) =
        Result.returned pre := by
      rw [add_sub_cancel_right]; exact hp
    have hd1 : (1 : Int) ≤ d + 1 := by omega
    rw [hX, exitFunc_returned lib _ (d + 1) lg label pre hd1 hp1, hxm]
    rfl
  · rw [scenario_lines lib
      (some { TracerConfiguration.zero with
                CustomLogger := logger, EnterMessage := "enter: ", ExitMessage := "exit:  " })
      c1 c2 "FIRST" "SECOND" false 2 "enter: " "exit:  " rfl rfl
      (by rw [applyDefaults_DisableDepthValue]; rfl)
      (by rw [applyDefaults_SpacesPerIndent]; rfl) (by decide)
      (by rw [applyDefaults_EnterMessage]; rfl)
      (by rw [applyDefaults_ExitMessage]; rfl)
      (by decide) (by decide) (by decide) (by decide)]
    rfl

/-- C10 at a concrete input: only the enter message is configured, so the exit
message is the default one. -/
theorem enter_exit_message_defaults_witness :
    (NewFunctionTracer GoLib.sample
        (some { TracerConfiguration.zero with EnterMessage := "in " })).options.DisableTracing
      = false ∧
    (NewFunctionTracer GoLib.sample
        (some { TracerConfiguration.zero with EnterMessage := "in " })).options.EnterMessage
      = "in " ∧
    (NewFunctionTracer GoLib.sample
        (some { TracerConfiguration.zero with EnterMessage := "in " })).options.ExitMessage
      = "Exiting Function:  " ∧
    logOf ((NewFunctionTracer GoLib.sample
        (some { TracerConfiguration.zero with EnterMessage := "in " })).Exit
      ((NewFunctionTracer GoLib.sample
        (some { TracerConfiguration.zero with EnterMessage := "in " })).options.stateAt (1 + 1)
        ⟨[]⟩) "label").options = ["[ 1]  Exiting Function:  label\n"] :=
  ⟨by decide,
    (enter_exit_message_defaults GoLib.sample
      (some { TracerConfiguration.zero with EnterMessage := "in " }) 1 ⟨[]⟩ none []
      "label" "[ 1]  " none none none (by decide) (by decide)).1,
    (enter_exit_message_defaults GoLib.sample
      (some { TracerConfiguration.zero with EnterMessage := "in " }) 1 ⟨[]⟩ none []
      "label" "[ 1]  " none none none (by decide) (by decide)).2.1,
    ((enter_exit_message_defaults GoLib.sample
      (some { TracerConfiguration.zero with EnterMessage := "in " }) 1 ⟨[]⟩ none []
      "label" "[ 1]  " none none none (by decide) (by decide)).2.2.1 (by decide)).2⟩

/-! ## C11: tracing disabled -/

/-- C11: for every configuration with `DisableTracing = true`, whatever its
other fields, every single `Enter` or `Exit` call with any arguments returns
and leaves the state, logger included, as it was; so every finite sequence of
such calls, also one with more `Exit` than `Enter` calls, run on the tracer
the constructor returned, completes without a failing call and with nothing
written to the logger, which is still the one of the configuration. -/
theorem disabled_tracer_is_silent (lib : GoLib) (opts : Option TracerConfiguration)
    (st : TracerConfiguration) (c : Call) (calls : List Call)
    (hdis : (optionsOf opts).DisableTracing = true) :
    (NewFunctionTracer lib opts).call st c = ⟨st, Result.returned ()⟩ ∧
    (NewFunctionTracer lib opts).run (NewFunctionTracer lib opts).options calls =
      ⟨(NewFunctionTracer lib opts).options, Result.returned ()⟩ ∧
    (∀ k, ((NewFunctionTracer lib opts).run (NewFunctionTracer lib opts).options
      (calls.take k)).result = Result.returned ()) ∧
    logOf ((NewFunctionTracer lib opts).run (NewFunctionTracer lib opts).options
      calls).options = logOf (optionsOf opts) := by
  obtain ⟨hE, hX, ho⟩ := NewFunctionTracer_disabled lib opts hdis
  refine ⟨?_, run_disabled lib opts hdis calls _, fun k => ?_, ?_⟩
  · cases c with
    | enter caller args => simp only [TracerPair.call, hE]
    | exit label => simp only [TracerPair.call, hX]
  · rw [run_disabled lib opts hdis]
  · rw [run_disabled lib opts hdis, ho]

/-- C11 at a concrete input: tracing disabled with a logger that holds one
record, other fields set as well, and three `Exit` calls around one `Enter`. -/
theorem disabled_tracer_is_silent_witness :
    (optionsOf (some { TracerConfiguration.zero with
        DisableTracing := true, CustomLogger := some ⟨["\n"]⟩,
        SpacesPerIndent := -7, EnterMessage := "in " })).DisableTracing = true ∧
    (NewFunctionTracer GoLib.sample (some { TracerConfiguration.zero with
        DisableTracing := true, CustomLogger := some ⟨["\n"]⟩,
        SpacesPerIndent := -7, EnterMessage := "in " })).run
      (NewFunctionTracer GoLib.sample (some { TracerConfiguration.zero with
        DisableTracing := true, CustomLogger := some ⟨["\n"]⟩,
        SpacesPerIndent := -7, EnterMessage := "in " })).options
      [Call.exit "x", Call.exit "y", Call.enter none [GoValue.str "FIRST %d", GoValue.int 1],
        Call.exit "z"] =
      ⟨(NewFunctionTracer GoLib.sample (some { TracerConfiguration.zero with
        DisableTracing := true, CustomLogger := some ⟨["\n"]⟩,
        SpacesPerIndent := -7, EnterMessage := "in " })).options, Result.returned ()⟩ ∧
    logOf ((NewFunctionTracer GoLib.sample (some { TracerConfiguration.zero with
        DisableTracing := true, CustomLogger := some ⟨["\n"]⟩,
        SpacesPerIndent := -7, EnterMessage := "in " })).run
      (NewFunctionTracer GoLib.sample (some { TracerConfiguration.zero with
        DisableTracing := true, CustomLogger := some ⟨["\n"]⟩,
        SpacesPerIndent := -7, EnterMessage := "in " })).options
      [Call.exit "x", Call.exit "y", Call.enter none [GoValue.str "FIRST %d", GoValue.int 1],
        Call.exit "z"]).options = ["\n"] :=
  ⟨rfl,
    (disabled_tracer_is_silent GoLib.sample (some { TracerConfiguration.zero with
        DisableTracing := true, CustomLogger := some ⟨["\n"]⟩,
        SpacesPerIndent := -7, EnterMessage := "in " }) TracerConfiguration.zero
      (Call.exit "x")
      [Call.exit "x", Call.exit "y", Call.enter none [GoValue.str "FIRST %d", GoValue.int 1],
        Call.exit "z"] rfl).2.1,
    (disabled_tracer_is_silent GoLib.sample (some { TracerConfiguration.zero with
        DisableTracing := true, CustomLogger := some ⟨["\n"]⟩,
        SpacesPerIndent := -7, EnterMessage := "in " }) TracerConfiguration.zero
      (Call.exit "x")
      [Call.exit "x", Call.exit "y", Call.enter none [GoValue.str "FIRST %d", GoValue.int 1],
        Call.exit "z"] rfl).2.2.2⟩

/-! ## C12: the message before substitution -/

/-- C12: for every argument list of `Enter` on a working tracer, the message
before substitution is, when the list starts with a string, that string used
as a format for the elements after it (for a format without `%` and no further
argument, the format itself); when the list is empty or starts with something
else than a string, it is the resolved caller function name, and the
arguments are ignored: the message `Enter` logs and returns is then the one of
a call without arguments. -/
theorem message_selection (lib : GoLib) (caller : Option String) (args : List GoValue)
    (fmtStr template : String) (rest : List GoValue) :
    traceMessage lib caller args =
      regexDetectFuncReplace lib (selectMessage lib (resolveFnName caller) args)
        (resolveFnName caller) ∧
    selectMessage lib (resolveFnName caller) (GoValue.str fmtStr :: rest) =
      Sprintf lib fmtStr rest ∧
    ('%' ∉ template.data →
      selectMessage lib (resolveFnName caller) [GoValue.str template] = template) ∧
    ((∀ s, args.head? ≠ some (GoValue.str s)) →
      selectMessage lib (resolveFnName caller) args = resolveFnName caller ∧
      traceMessage lib caller args = traceMessage lib caller []) := by
  refine ⟨traceMessage_eq_replace lib caller args, rfl, fun h => ?_, fun h => ?_⟩
  · exact Sprintf_plain lib template h
  · refine ⟨selectMessage_not_string lib _ args h, ?_⟩
    rw [traceMessage_eq_replace, traceMessage_eq_replace,
      selectMessage_not_string lib _ args h]
    rfl

/-! ## C13: the marker and the function name -/

/-- C13, evaluated where the code departs from it: a caller for which the
runtime reports the name `main.$nested0` calls `Enter("#FN")` on a fresh
default tracer.  The name is resolved unchanged, but `ReplaceAllString` reads
it as a template in which `$nested0` refers to a group that does not exist, so
the message logged and returned is `main.`, whereas the text with the marker
replaced by the name is `main.$nested0`.  For a function name without `$` the
message is the text with every occurrence of the marker replaced by the
name. -/
theorem marker_replacement_expands_dollar :
    resolveFnName (some "main.$nested0") = "main.$nested0" ∧
    traceMessage GoLib.sample (some "main.$nested0") [GoValue.str "#FN"] = "main." ∧
    (NewFunctionTracer GoLib.sample none).Enter (NewFunctionTracer GoLib.sample none).options
        (some "main.$nested0") [GoValue.str "#FN"] =
      ⟨(NewFunctionTracer GoLib.sample none).options.stateAt 1
          ⟨["[ 0]Entering Function: main.\n"]⟩,
        Result.returned "main."⟩ ∧
    String.mk (replaceAllFN "main.$nested0".data "#FN".data) = "main.$nested0" ∧
    (∀ (lib : GoLib) (src repl : String), '$' ∉ repl.data →
      regexDetectFuncReplace lib src repl = String.mk (replaceAllFN repl.data src.data)) :=
  ⟨by decide, by decide, by decide, by decide, regexDetectFuncReplace_literal⟩

/-! ## C14: name resolution on a name with a hash -/

/-- C14, as stated, fails: for the name `pkg.Type#method` (a path, a dot, a
segment without dot or hash, a hash, an identifier without hash) the resolved
name is `Typemethod`, not `method`: the match `pkg.Type#` gives way to its
group `Type`, and what follows the hash stays. -/
theorem name_resolution_keeps_segment :
    resolveFnName (some "pkg.Type#method") = "Typemethod" ∧
    resolveFnName (some "pkg.Type#method") ≠ "method" := by
  decide

/-- C14, amended: for a name of the form `P`, a dot, `S`, a hash, `I`, with no
line feed in `P` or `S`, no dot in `S` and no hash in `I`, name
resolution replaces everything up to and including the hash by the segment
`S` and keeps what follows: the resolved name is `S` followed by `I`; it is
`I` when `S` is empty. -/
theorem name_resolution_with_hash (P S I : String)
    (hP : '\n' ∉ P.data) (hSn : '\n' ∉ S.data) (hSd : '.' ∉ S.data) (hI : '#' ∉ I.data) :
    resolveFnName (some (P ++ "." ++ S ++ "#" ++ I)) = S ++ I ∧
    (S = "" → resolveFnName (some (P ++ "." ++ S ++ "#" ++ I)) = I) := by
  have hdata : (P ++ "." ++ S ++ "#" ++ I).data = P.data ++ '.' :: (S.data ++ '#' :: I.data) := by
    simp [String.data_append]
  have h1 : resolveFnName (some (P ++ "." ++ S ++ "#" ++ I)) = S ++ I := by
    unfold resolveFnName regexPredecessorReplace
    simp only [hdata, regexPredecessorFind_shape P.data S.data I.data hP hSn hSd hI]
    rfl
  refine ⟨h1, fun hS => ?_⟩
  rw [h1, hS]
  exact String.empty_append I

/-- C14 at a concrete input: the method `github.com/x/y.Type#Method`. -/
theorem name_resolution_with_hash_witness :
    resolveFnName (some ("github.com/x/y" ++ "." ++ "Type" ++ "#" ++ "Method")) =
      "Type" ++ "Method" :=
  (name_resolution_with_hash "github.com/x/y" "Type" "Method"
    (by decide) (by decide) (by decide) (by decide)).1

/-! ## C15: name resolution on a name without a hash -/

/-- C15: a caller name without `#` is resolved to itself, package path and dot
included; so `Enter()` without arguments, called by a function with such a
name on a fresh tracer of the default configuration (nil options, or options
in which at most the logger is set), logs `[ 0]Entering Function: ` and the
name, returns the name, and the matching `Exit` logs `[ 0]Exiting Function:  `
and the name.  For `foobar` of package `function-call-trace/tracer` these are
the two lines of `TestUnspecifiedFunctionName`. -/
theorem unqualified_name_unchanged (lib : GoLib) (opts : Option TracerConfiguration)
    (name : String)
    (hdef : optionsOf opts =
      { TracerConfiguration.zero with CustomLogger := (optionsOf opts).CustomLogger })
    (h : '#' ∉ name.data) :
    resolveFnName (some name) = name ∧
    (NewFunctionTracer lib opts).Enter (NewFunctionTracer lib opts).options (some name) [] =
      ⟨(NewFunctionTracer lib opts).options.stateAt 1
          ⟨logOf (NewFunctionTracer lib opts).options ++
            ["[ 0]Entering Function: " ++ name ++ "\n"]⟩,
        Result.returned name⟩ ∧
    (NewFunctionTracer lib opts).runNested (NewFunctionTracer lib opts).options
        [(some name, [])] =
      ⟨(NewFunctionTracer lib opts).options.stateAt 0
          ⟨logOf (NewFunctionTracer lib opts).options ++
            ["[ 0]Entering Function: " ++ name ++ "\n",
              "[ 0]Exiting Function:  " ++ name ++ "\n"]⟩,
        Result.returned ()⟩ := by
  have hen : (NewFunctionTracer lib opts).options.DisableTracing = false := by
    rw [NewFunctionTracer_DisableTracing, hdef]; rfl
  have hfresh : (optionsOf opts).currentDepth = 0 := by rw [hdef]; rfl
  obtain ⟨hE, hX, ho⟩ := NewFunctionTracer_enabled lib opts hen
  have hsp : (NewFunctionTracer lib opts).options.SpacesPerIndent = 2 := by
    rw [ho, applyDefaults_SpacesPerIndent, hdef]; rfl
  have hdd : (NewFunctionTracer lib opts).options.DisableDepthValue = false := by
    rw [ho, applyDefaults_DisableDepthValue, hdef]; rfl
  have hem : (NewFunctionTracer lib opts).options.EnterMessage = "Entering Function: " := by
    rw [ho, applyDefaults_EnterMessage, hdef]; rfl
  have hxm : (NewFunctionTracer lib opts).options.ExitMessage = "Exiting Function:  " := by
    rw [ho, applyDefaults_ExitMessage, hdef]; rfl
  have hl : lineStart (NewFunctionTracer lib opts).options 0 = "[ 0]" := by
    rw [lineStart_congr _ { TracerConfiguration.zero with SpacesPerIndent := 2 } 0 hdd hsp]
    rfl
  have hf := NewFunctionTracer_fresh lib opts hen
  rw [hfresh] at hf
  have hs0 : 0 ≤ (NewFunctionTracer lib opts).options.SpacesPerIndent := by rw [hsp]; decide
  have hw : (0 : Int) ≤ 0 * (NewFunctionTracer lib opts).options.SpacesPerIndent := by simp
  have hwl : (0 : Int) * (NewFunctionTracer lib opts).options.SpacesPerIndent ≤
      lib.allocLimit := by simp
  generalize (NewFunctionTracer lib opts) = p at *
  generalize logOf p.options = lg0 at *
  refine ⟨resolveFnName_no_hash name h, ?_, ?_⟩
  · conv_lhs => rw [hf]
    rw [hE, enterFunc_returned lib p.options 0 ⟨lg0⟩ (some name) [] _
      (spaceOpt_lineStart lib p.options 0 ⟨lg0⟩ hw hwl), hl, hem,
      traceMessage_no_hash lib name h]
    rfl
  · conv_lhs => rw [hf]
    rw [runNested_working lib p p.options hE hX hs0 _ 0 _ (le_refl 0) (by simp)]
    simp only [nestedLines, hl, hem, hxm, traceMessage_no_hash lib name h]
    rfl

/-- C15 at a concrete input: the function and the tracer of
`TestUnspecifiedFunctionName`, whose logger holds one record. -/
theorem unqualified_name_unchanged_witness :
    '#' ∉ "function-call-trace/tracer.foobar".data ∧
    (NewFunctionTracer GoLib.sample
        (some { TracerConfiguration.zero with CustomLogger := some ⟨["\n"]⟩ })).runNested
      (NewFunctionTracer GoLib.sample
        (some { TracerConfiguration.zero with CustomLogger := some ⟨["\n"]⟩ })).options
      [(some "function-call-trace/tracer.foobar", [])] =
      ⟨(NewFunctionTracer GoLib.sample
          (some { TracerConfiguration.zero with CustomLogger := some ⟨["\n"]⟩ })).options.stateAt 0
          ⟨["\n", "[ 0]Entering Function: function-call-trace/tracer.foobar\n",
            "[ 0]Exiting Function:  function-call-trace/tracer.foobar\n"]⟩,
        Result.returned ()⟩ :=
  ⟨by decide,
    (unqualified_name_unchanged GoLib.sample
      (some { TracerConfiguration.zero with CustomLogger := some ⟨["\n"]⟩ })
      "function-call-trace/tracer.foobar" rfl (by decide)).2.2⟩

/-! ## C16: configurations and failures -/

/-- C16, as stated, fails: with `SpacesPerIndent = -5` (depth display disabled,
an enter message of its own) the constructor returns a working tracer, the
first `Enter` completes and leaves depth 1, and the `Enter` called at that
depth, reached by a successful call only, panics in `strings.Repeat`: a failing
operation that is not an unmatched `Exit`.  With `SpacesPerIndent = 2^62` the
`Enter` called at depth 1 fails as well: the count is more than the runtime
can address. -/
theorem enter_fails_after_successful_enter :
    (NewFunctionTracer GoLib.sample (some { TracerConfiguration.zero with
        DisableDepthValue := true, SpacesPerIndent := -5,
        EnterMessage := "> " })).run
      (NewFunctionTracer GoLib.sample (some { TracerConfiguration.zero with
        DisableDepthValue := true, SpacesPerIndent := -5,
        EnterMessage := "> " })).options
      [Call.enter (some "main.f") [GoValue.str "a"]] =
      ⟨(NewFunctionTracer GoLib.sample (some { TracerConfiguration.zero with
          DisableDepthValue := true, SpacesPerIndent := -5,
          EnterMessage := "> " })).options.stateAt 1 ⟨["> a\n"]⟩,
        Result.returned ()⟩ ∧
    ((NewFunctionTracer GoLib.sample (some { TracerConfiguration.zero with
        DisableDepthValue := true, SpacesPerIndent := -5,
        EnterMessage := "> " })).Enter
      ((NewFunctionTracer GoLib.sample (some { TracerConfiguration.zero with
          DisableDepthValue := true, SpacesPerIndent := -5,
          EnterMessage := "> " })).options.stateAt 1 ⟨["> a\n"]⟩)
      (some "main.g") [GoValue.str "b"]).result =
      Result.panicked "strings: negative Repeat count" ∧
    (NewFunctionTracer GoLib.sample
        (some { TracerConfiguration.zero with SpacesPerIndent := 4611686018427387904 })).run
      (NewFunctionTracer GoLib.sample
        (some { TracerConfiguration.zero with SpacesPerIndent := 4611686018427387904 })).options
      [Call.enter (some "main.f") [GoValue.str "a"]] =
      ⟨(NewFunctionTracer GoLib.sample
        (some { TracerConfiguration.zero with SpacesPerIndent := 4611686018427387904 })).options.stateAt 1
          ⟨["[ 0]Entering Function: a\n"]⟩,
        Result.returned ()⟩ ∧
    ((NewFunctionTracer GoLib.sample
        (some { TracerConfiguration.zero with SpacesPerIndent := 4611686018427387904 })).Enter
      ((NewFunctionTracer GoLib.sample
        (some { TracerConfiguration.zero with SpacesPerIndent := 4611686018427387904 })).options.stateAt 1
          ⟨["[ 0]Entering Function: a\n"]⟩)
      (some "main.g") [GoValue.str "b"]).result =
      Result.panicked "runtime error: makeslice: len out of range" := by
  decide

/-- C16, amended: the constructor is a total function of the options, with no
failing path for any combination of values.  In every state a fresh tracer
reaches by calls that all completed: when tracing is disabled, or nesting is
disabled, or `SpacesPerIndent` is not negative and the indentation width at
the depth reached, the depth times the normalised spacing, is no more than the
runtime can allocate, every `Enter` call, for any caller and arguments,
completes; an `Enter` call fails exactly when tracing is enabled and that
width, as the 64-bit multiplication of the code yields it, is negative or
more than the runtime can allocate; and if an `Exit` call fails, then tracing
is enabled, the calls before it hold as many `Exit` as `Enter` calls (it has
no matching `Enter`), and the failure is the panic of the depth check. -/
theorem no_failure_with_nonnegative_spacing (lib : GoLib)
    (opts : Option TracerConfiguration) (calls : List Call) (st : TracerConfiguration)
    (caller : Option String) (args : List GoValue) (label : String)
    (hfresh : (optionsOf opts).currentDepth = 0)
    (hrun : (NewFunctionTracer lib opts).run (NewFunctionTracer lib opts).options calls =
      ⟨st, Result.returned ()⟩) :
    ((optionsOf opts).DisableTracing = true ∨ (optionsOf opts).DisableNesting = true ∨
        (0 ≤ (optionsOf opts).SpacesPerIndent ∧
          st.currentDepth * (applyDefaults (optionsOf opts)).SpacesPerIndent ≤
            lib.allocLimit) →
      ∃ l, ((NewFunctionTracer lib opts).Enter st caller args).result = Result.returned l) ∧
    (((NewFunctionTracer lib opts).Enter st caller args).result.failed = true ↔
      ((optionsOf opts).DisableTracing = false ∧
        (wrapInt64 (st.currentDepth * (applyDefaults (optionsOf opts)).SpacesPerIndent) < 0 ∨
          (lib.allocLimit : Int) <
            wrapInt64 (st.currentDepth * (applyDefaults (optionsOf opts)).SpacesPerIndent)))) ∧
    (((NewFunctionTracer lib opts).Exit st label).result.failed = true →
      (optionsOf opts).DisableTracing = false ∧ exits calls = enters calls ∧
        ((NewFunctionTracer lib opts).Exit st label).result =
          Result.panicked "Depth is negative! This should never happen") := by
  by_cases hdis : (optionsOf opts).DisableTracing = true
  · obtain ⟨hE, hX, -⟩ := NewFunctionTracer_disabled lib opts hdis
    rw [hE, hX]
    refine ⟨fun _ => ⟨"", rfl⟩, ?_, fun h => by cases h⟩
    constructor
    · intro h
      cases h
    · intro h
      rw [hdis] at h
      exact absurd h.1 (by decide)
  · have hdis2 : (optionsOf opts).DisableTracing = false := by simpa using hdis
    have hen : (NewFunctionTracer lib opts).options.DisableTracing = false := by
      rw [NewFunctionTracer_DisableTracing]; exact hdis2
    obtain ⟨hE, hX, ho⟩ := NewFunctionTracer_enabled lib opts hen
    have hle := lib.allocLimit_le
    have hf := NewFunctionTracer_fresh lib opts hen
    rw [hfresh] at hf
    rw [hf] at hrun
    obtain ⟨d2, lg2, hst, -, h2⟩ := run_state lib _ _ hE hX calls 0 _ st _ (le_refl 0) hrun
    obtain ⟨d3, lg3, hst3, -, hlev⟩ := run_levels lib _ _ hE hX calls 0 _ st (le_refl 0)
      (fun e he0 he1 => absurd he1 (not_lt.mpr he0)) hrun
    obtain ⟨hd2, hd0⟩ := h2 rfl
    subst hst
    have hd3 : d3 = d2 := by
      have := congrArg TracerConfiguration.currentDepth hst3
      exact this.symm
    subst hd3
    have hcd : ((NewFunctionTracer lib opts).options.stateAt d3 lg2).currentDepth = d3 := rfl
    rw [hcd, ← ho]
    have hfail := enterFunc_failed_iff lib (NewFunctionTracer lib opts).options d3 lg2
      caller args
    refine ⟨fun hs => ?_, ?_, fun hfailX => ?_⟩
    · have hsp : 0 ≤ (NewFunctionTracer lib opts).options.SpacesPerIndent ∧
          d3 * (NewFunctionTracer lib opts).options.SpacesPerIndent ≤ lib.allocLimit := by
        rcases hs with h | h | h
        · exact absurd h hdis
        · have hz : (NewFunctionTracer lib opts).options.SpacesPerIndent = 0 := by
            rw [ho, applyDefaults_SpacesPerIndent, if_pos h]
          rw [hz, mul_zero]
          exact ⟨le_refl _, Int.natCast_nonneg _⟩
        · refine ⟨?_, h.2⟩
          rw [ho, applyDefaults_SpacesPerIndent]
          split_ifs <;> first | exact le_refl _ | decide | exact h.1
      refine ⟨traceMessage lib caller args, ?_⟩
      rw [hE, enterFunc_returned lib _ d3 lg2 caller args _
        (spaceOpt_lineStart lib _ d3 lg2 (mul_nonneg hd0 hsp.1) hsp.2)]
    · rw [hE, hfail]
      exact ⟨fun h => ⟨hdis2, h⟩, fun h => h.2⟩
    · rw [hX] at hfailX ⊢
      by_cases h1 : 1 ≤ d3
      · obtain ⟨hw, hl⟩ := hlev (d3 - 1) (by omega) (by omega)
        have := (exitFunc_failed_iff lib (NewFunctionTracer lib opts).options d3 lg2
          label).mp hfailX
        omega
      · rw [exitFunc_unbalanced lib _ d3 lg2 label (by omega)]
        refine ⟨hdis2, ?_, rfl⟩
        omega

/-- C16 at a concrete input: the default tracer after `Enter`, `Exit`. -/
theorem no_failure_with_nonnegative_spacing_witness :
    (optionsOf none).currentDepth = 0 ∧
    (∃ l, ((NewFunctionTracer GoLib.sample none).Enter
      ((NewFunctionTracer GoLib.sample none).options.stateAt 0
        ⟨["[ 0]Entering Function: a\n", "[ 0]Exiting Function:  a\n"]⟩)
      none []).result = Result.returned l) :=
  ⟨rfl,
    (no_failure_with_nonnegative_spacing GoLib.sample none
      [Call.enter none [GoValue.str "a"], Call.exit "a"]
      ((NewFunctionTracer GoLib.sample none).options.stateAt 0
        ⟨["[ 0]Entering Function: a\n", "[ 0]Exiting Function:  a\n"]⟩)
      none [] "x" rfl (by decide)).1 (Or.inr (Or.inr (by decide)))⟩

/-! ## C17: the sign of the depth -/

/-- C17, as stated, fails: `Exit("")` on the fresh tracer of
`TestMoreExitsThanEntersMustPanic` decrements the depth before it checks it,
so the state the failing call leaves behind stores the depth -1. -/
theorem failed_exit_leaves_negative_depth :
    (NewFunctionTracer GoLib.sample (some { TracerConfiguration.zero with
        CustomLogger := some ⟨["\n"]⟩ })).options.DisableTracing = false ∧
    (NewFunctionTracer GoLib.sample (some { TracerConfiguration.zero with
        CustomLogger := some ⟨["\n"]⟩ })).options.currentDepth = 0 ∧
    (NewFunctionTracer GoLib.sample (some { TracerConfiguration.zero with
        CustomLogger := some ⟨["\n"]⟩ })).Exit
      (NewFunctionTracer GoLib.sample (some { TracerConfiguration.zero with
        CustomLogger := some ⟨["\n"]⟩ })).options "" =
      ⟨(NewFunctionTracer GoLib.sample (some { TracerConfiguration.zero with
          CustomLogger := some ⟨["\n"]⟩ })).options.stateAt (-1) ⟨["\n"]⟩,
        Result.panicked "Depth is negative! This should never happen"⟩ ∧
    ((NewFunctionTracer GoLib.sample (some { TracerConfiguration.zero with
        CustomLogger := some ⟨["\n"]⟩ })).Exit
      (NewFunctionTracer GoLib.sample (some { TracerConfiguration.zero with
        CustomLogger := some ⟨["\n"]⟩ })).options "").options.currentDepth < 0 := by
  decide

/-- C17, amended: in every state a freshly constructed working tracer (depth
0) reaches by a finite sequence of `Enter` and `Exit` calls that all complete,
the stored depth is not negative: it is the number of `Enter` calls minus the
number of `Exit` calls.  The state left behind by the first call that fails
stores a depth of at least -1, and an `Exit` that fails at depth 0 leaves the
depth -1 behind. -/
theorem depth_nonnegative_while_calls_complete (lib : GoLib)
    (opts : Option TracerConfiguration) (calls : List Call) (st : TracerConfiguration)
    (r : Result Unit) (lg : Logger) (label : String)
    (hen : (NewFunctionTracer lib opts).options.DisableTracing = false)
    (hfresh : (optionsOf opts).currentDepth = 0)
    (hrun : (NewFunctionTracer lib opts).run (NewFunctionTracer lib opts).options calls =
      ⟨st, r⟩) :
    (r = Result.returned () →
      0 ≤ st.currentDepth ∧ st.currentDepth = enters calls - exits calls) ∧
    -1 ≤ st.currentDepth ∧
    ((NewFunctionTracer lib opts).Exit
      ((NewFunctionTracer lib opts).options.stateAt 0 lg) label).options.currentDepth = -1 := by
  obtain ⟨hE, hX, -⟩ := NewFunctionTracer_enabled lib opts hen
  have hf := NewFunctionTracer_fresh lib opts hen
  rw [hfresh] at hf
  rw [hf] at hrun
  obtain ⟨d2, lg2, hst, h1, h2⟩ := run_state lib _ _ hE hX calls 0 _ st r (le_refl 0) hrun
  subst hst
  refine ⟨fun hr => ?_, h1, ?_⟩
  · obtain ⟨h3, h4⟩ := h2 hr
    exact ⟨h4, by simpa using h3⟩
  · rw [hX, exitFunc_unbalanced lib _ 0 lg label (by decide)]
    rfl

/-- C17 at a concrete input: the default tracer after `Enter`, `Enter`,
`Exit`. -/
theorem depth_nonnegative_while_calls_complete_witness :
    (NewFunctionTracer GoLib.sample none).options.DisableTracing = false ∧
    (optionsOf none).currentDepth = 0 ∧
    (0 : Int) ≤ ((NewFunctionTracer GoLib.sample none).options.stateAt 1
      ⟨["[ 0]Entering Function: a\n", "[ 1]  Entering Function: b\n",
        "[ 1]  Exiting Function:  b\n"]⟩).currentDepth :=
  ⟨by decide, rfl,
    ((depth_nonnegative_while_calls_complete GoLib.sample none
      [Call.enter none [GoValue.str "a"], Call.enter none [GoValue.str "b"], Call.exit "b"]
      ((NewFunctionTracer GoLib.sample none).options.stateAt 1
        ⟨["[ 0]Entering Function: a\n", "[ 1]  Entering Function: b\n",
          "[ 1]  Exiting Function:  b\n"]⟩)
      (Result.returned ()) ⟨[]⟩ "" (by decide) rfl (by decide)).1 rfl).1⟩

/-! ## C18: the caller that cannot be resolved -/

/-- C18: when caller-name resolution fails, the resolved function name is the
literal `<unknown>`; it is the message when the argument list is empty or
starts with something else than a string, and for a leading template the
message is the formatted template with every occurrence of `#FN` replaced by
`<unknown>`.  The failed resolution makes no call fail: in every state `Enter`
fails with an unresolved caller exactly when it fails with a resolved one;
whenever the line start of the state is rendered, the call writes its one
line, with that message, and leaves the depth one higher; and on a fresh
working tracer it does so whatever the configuration. -/
theorem unresolved_caller_falls_back (lib : GoLib) (opts : Option TracerConfiguration)
    (d : Int) (lg : Logger) (args : List GoValue) (fmtStr : String) (rest : List GoValue)
    (st : TracerConfiguration) (name : String)
    (hen : (NewFunctionTracer lib opts).options.DisableTracing = false) :
    resolveFnName none = "<unknown>" ∧
    ((∀ s, args.head? ≠ some (GoValue.str s)) → traceMessage lib none args = "<unknown>") ∧
    traceMessage lib none (GoValue.str fmtStr :: rest) =
      String.mk (replaceAllFN "<unknown>".data (Sprintf lib fmtStr rest).data) ∧
    ((NewFunctionTracer lib opts).Enter st none args).result.failed =
      ((NewFunctionTracer lib opts).Enter st (some name) args).result.failed ∧
    (∀ pre,
      spaceOpt lib ((NewFunctionTracer lib opts).options.stateAt d lg) = Result.returned pre →
      (NewFunctionTracer lib opts).Enter
          ((NewFunctionTracer lib opts).options.stateAt d lg) none args =
        ⟨(NewFunctionTracer lib opts).options.stateAt (d + 1)
            ⟨lg.written ++ [pre ++ (NewFunctionTracer lib opts).options.EnterMessage ++
              traceMessage lib none args ++ "\n"]⟩,
          Result.returned (traceMessage lib none args)⟩) ∧
    ((optionsOf opts).currentDepth = 0 →
      (NewFunctionTracer lib opts).Enter (NewFunctionTracer lib opts).options none args =
        ⟨(NewFunctionTracer lib opts).options.stateAt 1
            ⟨logOf (NewFunctionTracer lib opts).options ++
              [lineStart (NewFunctionTracer lib opts).options 0 ++
                (NewFunctionTracer lib opts).options.EnterMessage ++
                traceMessage lib none args ++ "\n"]⟩,
          Result.returned (traceMessage lib none args)⟩) := by
  obtain ⟨hE, -, -⟩ := NewFunctionTracer_enabled lib opts hen
  refine ⟨rfl, fun h => ?_, ?_, ?_, fun pre hp => ?_, fun hfresh => ?_⟩
  · have hsel : traceMessage lib none args = regexDetectFuncReplace lib "<unknown>" "<unknown>" := by
      unfold traceMessage
      cases args with
      | nil => rfl
      | cons a tl =>
        cases a with
        | str s => exact absurd rfl (h s)
        | int n => rfl
        | bool b => rfl
        | nil => rfl
        | other t x => rfl
    rw [hsel, regexDetectFuncReplace_literal lib _ _ (by decide)]
    rfl
  · show regexDetectFuncReplace lib (Sprintf lib fmtStr rest) "<unknown>" = _
    rw [regexDetectFuncReplace_literal lib _ _ (by decide)]
  · rw [hE]
    exact enterFunc_failed_caller lib st none (some name) args args
  · rw [hE]
    exact enterFunc_returned lib _ d lg none args pre hp
  · have hf := NewFunctionTracer_fresh lib opts hen
    rw [hfresh] at hf
    have hw : (0 : Int) ≤ 0 * (NewFunctionTracer lib opts).options.SpacesPerIndent := by simp
    have hwl : (0 : Int) * (NewFunctionTracer lib opts).options.SpacesPerIndent ≤
        lib.allocLimit := by simp
    generalize (NewFunctionTracer lib opts) = p at *
    generalize logOf p.options = lg0 at *
    conv_lhs => rw [hf]
    rw [hE, enterFunc_returned lib p.options 0 ⟨lg0⟩ none args _
      (spaceOpt_lineStart lib p.options 0 ⟨lg0⟩ hw hwl)]
    rfl

/-- C18 at a concrete input: the default tracer, fresh, called without
arguments, and the template `in #FN`. -/
theorem unresolved_caller_falls_back_witness :
    (NewFunctionTracer GoLib.sample none).options.DisableTracing = false ∧
    traceMessage GoLib.sample none (GoValue.str "in #FN" :: []) = "in <unknown>" ∧
    (NewFunctionTracer GoLib.sample none).Enter (NewFunctionTracer GoLib.sample none).options
        none [] =
      ⟨(NewFunctionTracer GoLib.sample none).options.stateAt 1
          ⟨["[ 0]Entering Function: <unknown>\n"]⟩,
        Result.returned "<unknown>"⟩ :=
  ⟨by decide,
    ((unresolved_caller_falls_back GoLib.sample none 1 ⟨[]⟩ [] "in #FN" []
      TracerConfiguration.zero "main.f" (by decide)).2.2.1).trans (by decide),
    ((unresolved_caller_falls_back GoLib.sample none 1 ⟨[]⟩ [] "in #FN" []
      TracerConfiguration.zero "main.f" (by decide)).2.2.2.2.2 (by decide)).trans (by decide)⟩

/-! ## C19: a failed `Exit` logs nothing -/

/-- C19: on every working (tracing-enabled) tracer at depth 0, whatever its
spacing and whatever the logger holds, `Exit` with any label panics on the
depth check and hands nothing to the logger: the records after the failed call
are the records before it. -/
theorem failed_exit_writes_nothing (lib : GoLib) (opts : Option TracerConfiguration)
    (lg : Logger) (label : String)
    (hen : (NewFunctionTracer lib opts).options.DisableTracing = false) :
    ((NewFunctionTracer lib opts).Exit
        ((NewFunctionTracer lib opts).options.stateAt 0 lg) label).result =
      Result.panicked "Depth is negative! This should never happen" ∧
    logOf ((NewFunctionTracer lib opts).Exit
        ((NewFunctionTracer lib opts).options.stateAt 0 lg) label).options =
      logOf ((NewFunctionTracer lib opts).options.stateAt 0 lg) ∧
    logOf ((NewFunctionTracer lib opts).Exit
        ((NewFunctionTracer lib opts).options.stateAt 0 lg) label).options = lg.written := by
  obtain ⟨-, hX, -⟩ := NewFunctionTracer_enabled lib opts hen
  rw [hX, exitFunc_unbalanced lib _ 0 lg label (by decide)]
  exact ⟨rfl, rfl, rfl⟩

/-- C19 at a concrete input: the tracer of `TestMoreExitsThanEntersMustPanic`
with a logger that holds one record. -/
theorem failed_exit_writes_nothing_witness :
    (NewFunctionTracer GoLib.sample (some { TracerConfiguration.zero with
        CustomLogger := some ⟨["\n"]⟩ })).options.DisableTracing = false ∧
    logOf ((NewFunctionTracer GoLib.sample (some { TracerConfiguration.zero with
        CustomLogger := some ⟨["\n"]⟩ })).Exit
      ((NewFunctionTracer GoLib.sample (some { TracerConfiguration.zero with
        CustomLogger := some ⟨["\n"]⟩ })).options.stateAt 0 ⟨["\n"]⟩) "").options = ["\n"] :=
  ⟨by decide,
    (failed_exit_writes_nothing GoLib.sample (some { TracerConfiguration.zero with
        CustomLogger := some ⟨["\n"]⟩ }) ⟨["\n"]⟩ "" (by decide)).2.2⟩

/-! ## C20: the label in disabled mode -/

/-- C20: for every configuration with `DisableTracing = true`, `Enter` in any
state, for any reported caller and any argument list, returns the empty text
and leaves the state alone; for the plain template FIRST too it returns the
empty text, not the message FIRST a working tracer forms from that template,
so the label handed on to `Exit` carries no text. -/
theorem disabled_enter_returns_empty (lib : GoLib) (opts : Option TracerConfiguration)
    (st : TracerConfiguration) (caller : Option String) (args : List GoValue)
    (hdis : (optionsOf opts).DisableTracing = true) :
    (NewFunctionTracer lib opts).Enter st caller args = ⟨st, Result.returned ""⟩ ∧
    (NewFunctionTracer lib opts).Enter st caller [GoValue.str "FIRST"] =
      ⟨st, Result.returned ""⟩ ∧
    traceMessage lib caller [GoValue.str "FIRST"] = "FIRST" := by
  obtain ⟨hE, -, -⟩ := NewFunctionTracer_disabled lib opts hdis
  rw [hE]
  exact ⟨rfl, rfl, traceMessage_plain lib caller "FIRST" (by decide) (by decide)⟩

/-- C20 at a concrete input: tracing disabled, as in `TestDisableTracing`, and
the plain template FIRST. -/
theorem disabled_enter_returns_empty_witness :
    (optionsOf (some { TracerConfiguration.zero with
        DisableTracing := true, CustomLogger := some ⟨["\n"]⟩ })).DisableTracing = true ∧
    (NewFunctionTracer GoLib.sample (some { TracerConfiguration.zero with
        DisableTracing := true, CustomLogger := some ⟨["\n"]⟩ })).Enter
      (NewFunctionTracer GoLib.sample (some { TracerConfiguration.zero with
        DisableTracing := true, CustomLogger := some ⟨["\n"]⟩ })).options
      (some "function-call-trace/tracer.TestDisableTracing.func2") [GoValue.str "FIRST"] =
      ⟨(NewFunctionTracer GoLib.sample (some { TracerConfiguration.zero with
        DisableTracing := true, CustomLogger := some ⟨["\n"]⟩ })).options,
        Result.returned ""⟩ :=
  ⟨rfl,
    (disabled_enter_returns_empty GoLib.sample (some { TracerConfiguration.zero with
        DisableTracing := true, CustomLogger := some ⟨["\n"]⟩ })
      (NewFunctionTracer GoLib.sample (some { TracerConfiguration.zero with
        DisableTracing := true, CustomLogger := some ⟨["\n"]⟩ })).options
      (some "function-call-trace/tracer.TestDisableTracing.func2") [GoValue.str "FIRST"]
      rfl).1⟩

end Tracer
